import Mathlib

/-!
Verification development for the ProperDuel 2D fighting game
(src/game/character.py, src/game/sprite_system.py, src/game/scenes.py).

The combat core is shallowly embedded: Python floats become `ℚ`, Python ints
become `ℤ` or `ℕ`, pure methods become Lean functions and mutating methods
become state-passing functions on explicit state structures.  Sprite surface
contents, sound playback and rendering are presentation-only side effects and
are not part of the embedded state; an `Animation` keeps only the *number* of
frames (`frames`), its timing fields and playback flags, which is everything
the combat logic reads.
-/

/-- Truncation toward zero, as Python's/pygame's float→int conversion
(`pygame.Rect` coordinates are C ints). -/
def ratTrunc (q : ℚ) : ℤ :=
  if q < 0 then Rat.ceil q else Rat.floor q

/-- `game/input_handler.py`, class `PlayerInput` (the effective second
`__init__`): the per-tick intent snapshot consumed by `Character.update`. -/
structure PlayerInput where
  left : Bool := false
  right : Bool := false
  up : Bool := false
  down : Bool := false
  attack : Bool := false
  block : Bool := false
  special : Bool := false

/-- The all-false (neutral) intent, as a freshly constructed `PlayerInput()`. -/
def PlayerInput.neutral : PlayerInput := {}

/-- `game/sprite_system.py`, class `Animation`.  `frames` is the number of
frames of the clip (`len(self.frames)`); the pixel contents of the surfaces
are presentation-only and are not modelled. -/
structure Animation where
  frames : ℕ
  frame_duration : ℚ
  current_frame : ℕ
  time_since_last_frame : ℚ
  is_playing : Bool
  loop : Bool

/-- `Animation.__init__(frames, frame_duration)`. -/
def Animation.mk0 (frames : ℕ) (frame_duration : ℚ) : Animation :=
  { frames := frames, frame_duration := frame_duration, current_frame := 0,
    time_since_last_frame := 0, is_playing := true, loop := true }

/-- `Animation.update(dt)`. -/
def Animation.update (a : Animation) (dt : ℚ) : Animation :=
  if a.is_playing = false ∨ a.frames = 0 then a
  else
    let t := a.time_since_last_frame + dt
    if a.frame_duration ≤ t then
      let f := a.current_frame + 1
      if a.frames ≤ f then
        if a.loop then { a with time_since_last_frame := 0, current_frame := 0 }
        else { a with time_since_last_frame := 0, current_frame := a.frames - 1,
                      is_playing := false }
      else { a with time_since_last_frame := 0, current_frame := f }
    else { a with time_since_last_frame := t }

/-- `Animation.reset()`. -/
def Animation.reset (a : Animation) : Animation :=
  { a with current_frame := 0, time_since_last_frame := 0, is_playing := true }

/-- `Animation.play()`. -/
def Animation.play (a : Animation) : Animation :=
  { a with is_playing := true }

/-- `Animation.is_finished()`. -/
def Animation.is_finished (a : Animation) : Bool :=
  !a.loop && !a.is_playing

/-- `game/sprite_system.py`, class `SpriteAnimator`.  In Python
`current_animation` aliases the dictionary entry named
`current_animation_name`, so the pair (association list, current name)
captures the whole state; the current animation is recovered by lookup. -/
structure SpriteAnimator where
  animations : List (String × Animation)
  current_animation_name : String

/-- Dictionary lookup `self.animations[name]` / `name in self.animations`. -/
def animLookup : List (String × Animation) → String → Option Animation
  | [], _ => none
  | (k, a) :: rest, name => if k = name then some a else animLookup rest name

/-- Overwrite the entry for `name` (mutation of the dict entry aliased by
`current_animation`). -/
def animSet : List (String × Animation) → String → Animation → List (String × Animation)
  | [], _, _ => []
  | (k, a) :: rest, name, a' =>
    if k = name then (k, a') :: rest else (k, a) :: animSet rest name a'

/-- `SpriteAnimator.update(dt)`: advances the current animation (the aliased
dict entry). -/
def SpriteAnimator.update (an : SpriteAnimator) (dt : ℚ) : SpriteAnimator :=
  match animLookup an.animations an.current_animation_name with
  | none => an
  | some a =>
    { an with animations := animSet an.animations an.current_animation_name (a.update dt) }

/-- `SpriteAnimator.play_animation(name, reset)`. -/
def SpriteAnimator.play_animation (an : SpriteAnimator) (name : String) (reset : Bool) :
    SpriteAnimator :=
  match animLookup an.animations name with
  | none => an
  | some a =>
    if an.current_animation_name ≠ name ∨ reset = true then
      let a := if reset then a.reset else a
      { an with current_animation_name := name,
                animations := animSet an.animations name a.play }
    else an

/-- `name in self.animator.animations`. -/
def SpriteAnimator.has (an : SpriteAnimator) (name : String) : Bool :=
  (animLookup an.animations name).isSome

/-- The current animation (`self.animator.current_animation`), recovered by
lookup thanks to the aliasing invariant. -/
def SpriteAnimator.current (an : SpriteAnimator) : Option Animation :=
  animLookup an.animations an.current_animation_name

/-- `game/character.py`, class `Character`: one fighter's full mutable state.
Omitted relative to `__init__`: the sound handles (side-effect only), the
fallback `color`, and the cheat input buffer `cheat_input`/`cheat_timer`
(pure keyboard bookkeeping whose only combat effect, toggling `god_mode`, is
kept as the `god_mode` field). -/
structure Character where
  x : ℚ
  y : ℚ
  velocity_x : ℚ
  velocity_y : ℚ
  facing_right : Bool
  health : ℤ
  max_health : ℤ
  speed : ℚ
  jump_power : ℚ
  jump_stamina_cost : ℚ
  is_attacking : Bool
  is_blocking : Bool
  is_dead : Bool
  is_hit : Bool
  hit_duration : ℚ
  hit_animation_time : ℚ
  attack_cooldown : ℚ
  attack_duration : ℚ
  attack_cooldown_time : ℚ
  current_attack_id : ℤ
  attack_hit_frame : ℕ
  can_hit : Bool
  is_special_attacking : Bool
  special_attack_cooldown : ℚ
  special_attack_duration : ℚ
  special_attack_cooldown_time : ℚ
  current_special_attack_id : ℤ
  special_attack_hit_frame : ℕ
  can_special_hit : Bool
  stamina : ℚ
  max_stamina : ℚ
  stamina_per_block : ℚ
  stamina_regen_rate : ℚ
  god_mode : Bool
  is_stunned : Bool
  stun_duration : ℚ
  stun_time : ℚ
  last_block_time : ℚ
  gravity : ℚ
  ground_y : ℚ
  on_ground : Bool
  width : ℤ
  height : ℤ
  animator : SpriteAnimator
  last_attack_id : ℤ
  last_special_attack_id : ℤ


/-- Field-wise extensionality for `Character`. -/
theorem Character.ext_fields {a b : Character}
    (h1 : a.x = b.x)
    (h2 : a.y = b.y)
    (h3 : a.velocity_x = b.velocity_x)
    (h4 : a.velocity_y = b.velocity_y)
    (h5 : a.facing_right = b.facing_right)
    (h6 : a.health = b.health)
    (h7 : a.max_health = b.max_health)
    (h8 : a.speed = b.speed)
    (h9 : a.jump_power = b.jump_power)
    (h10 : a.jump_stamina_cost = b.jump_stamina_cost)
    (h11 : a.is_attacking = b.is_attacking)
    (h12 : a.is_blocking = b.is_blocking)
    (h13 : a.is_dead = b.is_dead)
    (h14 : a.is_hit = b.is_hit)
    (h15 : a.hit_duration = b.hit_duration)
    (h16 : a.hit_animation_time = b.hit_animation_time)
    (h17 : a.attack_cooldown = b.attack_cooldown)
    (h18 : a.attack_duration = b.attack_duration)
    (h19 : a.attack_cooldown_time = b.attack_cooldown_time)
    (h20 : a.current_attack_id = b.current_attack_id)
    (h21 : a.attack_hit_frame = b.attack_hit_frame)
    (h22 : a.can_hit = b.can_hit)
    (h23 : a.is_special_attacking = b.is_special_attacking)
    (h24 : a.special_attack_cooldown = b.special_attack_cooldown)
    (h25 : a.special_attack_duration = b.special_attack_duration)
    (h26 : a.special_attack_cooldown_time = b.special_attack_cooldown_time)
    (h27 : a.current_special_attack_id = b.current_special_attack_id)
    (h28 : a.special_attack_hit_frame = b.special_attack_hit_frame)
    (h29 : a.can_special_hit = b.can_special_hit)
    (h30 : a.stamina = b.stamina)
    (h31 : a.max_stamina = b.max_stamina)
    (h32 : a.stamina_per_block = b.stamina_per_block)
    (h33 : a.stamina_regen_rate = b.stamina_regen_rate)
    (h34 : a.god_mode = b.god_mode)
    (h35 : a.is_stunned = b.is_stunned)
    (h36 : a.stun_duration = b.stun_duration)
    (h37 : a.stun_time = b.stun_time)
    (h38 : a.last_block_time = b.last_block_time)
    (h39 : a.gravity = b.gravity)
    (h40 : a.ground_y = b.ground_y)
    (h41 : a.on_ground = b.on_ground)
    (h42 : a.width = b.width)
    (h43 : a.height = b.height)
    (h44 : a.animator = b.animator)
    (h45 : a.last_attack_id = b.last_attack_id)
    (h46 : a.last_special_attack_id = b.last_special_attack_id) :
    a = b := by
  cases a
  cases b
  congr 1 <;> assumption

/-- `Character.start_attack()`. -/
def Character.start_attack (s : Character) : Character :=
  { s with is_attacking := true, attack_duration := 0.48, is_blocking := false,
           current_attack_id := s.current_attack_id + 1, can_hit := false }

/-- `Character.start_special_attack()`: returns whether the special actually
started (cooldown gate). -/
def Character.start_special_attack (s : Character) : Character × Bool :=
  if s.special_attack_cooldown ≤ (0 : ℚ) then
    ({ s with is_special_attacking := true, special_attack_duration := 0.72,
              is_blocking := false,
              current_special_attack_id := s.current_special_attack_id + 1,
              can_special_hit := false }, true)
  else (s, false)

/-- `_handle_input`, block step: blocking flag from intent and `can_block`,
block-start stamina cost and the stamina-depletion stun. -/
def Character.input_block (s : Character) (inp : PlayerInput) : Character :=
  let was_blocking := s.is_blocking
  let can_block : Bool := decide (0 < s.stamina) && !s.is_attacking
  let s : Character := { s with is_blocking := inp.block && can_block }
  if s.is_blocking = true ∧ was_blocking = false then
    let s : Character :=
      { s with stamina := max 0 (s.stamina - s.stamina_per_block), last_block_time := 0 }
    if s.stamina ≤ (0 : ℚ) then
      { s with is_stunned := true, stun_duration := s.stun_time, is_blocking := false }
    else s
  else s

/-- `_handle_input`, movement step (disabled while blocking or stunned). -/
def Character.input_move (s : Character) (inp : PlayerInput) : Character :=
  if s.is_blocking = false ∧ s.is_stunned = false then
    if inp.left = true then { s with velocity_x := -s.speed, facing_right := false }
    else if inp.right = true then { s with velocity_x := s.speed, facing_right := true }
    else { s with velocity_x := 0 }
  else { s with velocity_x := 0 }

/-- `_handle_input`, jump step (stamina gated; depletion to 0 stuns). -/
def Character.input_jump (s : Character) (inp : PlayerInput) : Character :=
  if inp.up = true ∧ s.on_ground = true ∧ s.is_blocking = false ∧ s.is_stunned = false ∧
      s.jump_stamina_cost ≤ s.stamina then
    let s : Character :=
      { s with velocity_y := -s.jump_power, on_ground := false,
               stamina := max 0 (s.stamina - s.jump_stamina_cost) }
    if s.stamina ≤ (0 : ℚ) then
      { s with is_stunned := true, stun_duration := s.stun_time, is_blocking := false }
    else s
  else s

/-- `_handle_input`, attack gate. -/
def Character.input_attack (s : Character) (inp : PlayerInput) : Character :=
  if inp.attack = true ∧ s.is_attacking = false ∧ s.is_special_attacking = false ∧
      s.attack_cooldown ≤ (0 : ℚ) ∧ s.is_stunned = false then
    s.start_attack
  else s

/-- `_handle_input`, special-attack gate. -/
def Character.input_special (s : Character) (inp : PlayerInput) : Character :=
  if inp.special = true ∧ s.is_attacking = false ∧ s.is_special_attacking = false ∧
      s.is_stunned = false then
    (s.start_special_attack).1
  else s

/-- `Character._handle_input(input_state, dt)`: stunned short-circuit, then the
five sequential steps in source order. -/
def Character.handle_input (s : Character) (inp : PlayerInput) (dt : ℚ) : Character :=
  if s.is_stunned = true then { s with is_blocking := false, velocity_x := 0 }
  else ((((s.input_block inp).input_move inp).input_jump inp).input_attack inp).input_special inp

/-- `_update_physics`, gravity while airborne. -/
def Character.phys_gravity (s : Character) (dt : ℚ) : Character :=
  if s.on_ground = false then { s with velocity_y := s.velocity_y + s.gravity * dt } else s

/-- `_update_physics`, position integration. -/
def Character.phys_integrate (s : Character) (dt : ℚ) : Character :=
  { s with x := s.x + s.velocity_x * dt, y := s.y + s.velocity_y * dt }

/-- `_update_physics`, ground collision. -/
def Character.phys_ground (s : Character) : Character :=
  if s.ground_y ≤ s.y then { s with y := s.ground_y, velocity_y := 0, on_ground := true }
  else s

/-- `_update_physics`, arena boundary clamp ([-100, 900 - width]). -/
def Character.phys_clamp (s : Character) : Character :=
  let arena_left : ℚ := -100
  let arena_right : ℚ := 900
  if s.x < arena_left then { s with x := arena_left }
  else if arena_right - (s.width : ℚ) < s.x then { s with x := arena_right - (s.width : ℚ) }
  else s

/-- `Character._update_physics(dt)`: the four steps in source order. -/
def Character.update_physics (s : Character) (dt : ℚ) : Character :=
  (((s.phys_gravity dt).phys_integrate dt).phys_ground).phys_clamp

/-- `_update_combat`, stun countdown. -/
def Character.combat_stun (s : Character) (dt : ℚ) : Character :=
  if s.is_stunned = true then
    let s : Character := { s with stun_duration := s.stun_duration - dt }
    if s.stun_duration ≤ (0 : ℚ) then { s with is_stunned := false, is_blocking := false }
    else s
  else s

/-- `_update_combat`, attack-duration countdown (cooldown starts at expiry). -/
def Character.combat_attack_timer (s : Character) (dt : ℚ) : Character :=
  if s.is_attacking = true then
    let s : Character := { s with attack_duration := s.attack_duration - dt }
    if s.attack_duration ≤ (0 : ℚ) then
      { s with is_attacking := false, attack_cooldown := s.attack_cooldown_time }
    else s
  else s

/-- `_update_combat`, hit-reaction countdown. -/
def Character.combat_hit_timer (s : Character) (dt : ℚ) : Character :=
  if s.is_hit = true then
    let s : Character := { s with hit_duration := s.hit_duration - dt }
    if s.hit_duration ≤ (0 : ℚ) then { s with is_hit := false } else s
  else s

/-- `_update_combat`, special-attack-duration countdown. -/
def Character.combat_special_timer (s : Character) (dt : ℚ) : Character :=
  if s.is_special_attacking = true then
    let s : Character := { s with special_attack_duration := s.special_attack_duration - dt }
    if s.special_attack_duration ≤ (0 : ℚ) then
      { s with is_special_attacking := false,
               special_attack_cooldown := s.special_attack_cooldown_time }
    else s
  else s

/-- `_update_combat`, cooldown tick-down (clamped at 0). -/
def Character.combat_cooldowns (s : Character) (dt : ℚ) : Character :=
  let s : Character :=
    if 0 < s.attack_cooldown then { s with attack_cooldown := max 0 (s.attack_cooldown - dt) }
    else s
  if 0 < s.special_attack_cooldown then
    { s with special_attack_cooldown := max 0 (s.special_attack_cooldown - dt) }
  else s

/-- `_update_combat`, stamina regeneration and the block timer. -/
def Character.combat_regen (s : Character) (dt : ℚ) : Character :=
  let s : Character :=
    if s.is_blocking = false ∧ s.is_stunned = false ∧ s.stamina < s.max_stamina then
      { s with stamina := min s.max_stamina (s.stamina + s.stamina_regen_rate * dt) }
    else s
  if s.is_blocking = false then { s with last_block_time := s.last_block_time + dt } else s

/-- `Character._update_combat(dt)`: the six steps in source order. -/
def Character.update_combat (s : Character) (dt : ℚ) : Character :=
  ((((((s.combat_stun dt).combat_attack_timer dt).combat_hit_timer dt).combat_special_timer
    dt).combat_cooldowns dt).combat_regen dt)

/-- `_update_animations`, attack hit-frame check: enable the hit latch once
the playing attack clip reaches `attack_hit_frame`. -/
def Character.anim_hit_frame (s : Character) : Character :=
  if s.is_attacking = true ∧ s.animator.current_animation_name = "attack" then
    match s.animator.current with
    | some a =>
      if s.attack_hit_frame ≤ a.current_frame ∧ s.can_hit = false then
        { s with can_hit := true }
      else s
    | none => s
  else s

/-- `_update_animations`, special-attack hit-frame check. -/
def Character.anim_special_hit_frame (s : Character) : Character :=
  if s.is_special_attacking = true ∧ s.animator.current_animation_name = "special_attack" then
    match s.animator.current with
    | some a =>
      if s.special_attack_hit_frame ≤ a.current_frame ∧ s.can_special_hit = false then
        { s with can_special_hit := true }
      else s
    | none => s
  else s

/-- `_update_animations`, the state-priority animation chooser (new attack ids
restart the clip and reset the corresponding hit latch). -/
def Character.anim_choose (s : Character) : Character :=
  if s.is_special_attacking = true then
    if s.current_special_attack_id ≠ s.last_special_attack_id then
      { s with animator := s.animator.play_animation "special_attack" true,
               last_special_attack_id := s.current_special_attack_id,
               can_special_hit := false }
    else s
  else if s.is_attacking = true then
    if s.current_attack_id ≠ s.last_attack_id then
      { s with animator := s.animator.play_animation "attack" true,
               last_attack_id := s.current_attack_id,
               can_hit := false }
    else s
  else if s.is_hit = true then { s with animator := s.animator.play_animation "hit" false }
  else if s.is_stunned = true then { s with animator := s.animator.play_animation "stun" false }
  else if s.is_blocking = true then { s with animator := s.animator.play_animation "block" false }
  else if 10 < |s.velocity_x| then { s with animator := s.animator.play_animation "walk" false }
  else if s.on_ground = false then { s with animator := s.animator.play_animation "jump" false }
  else { s with animator := s.animator.play_animation "idle" false }

/-- `Character._update_animations(dt)`: advance the animator, the dead
short-circuit, then the three steps in source order. -/
def Character.update_animations (s : Character) (dt : ℚ) : Character :=
  let s : Character := { s with animator := s.animator.update dt }
  if s.is_dead = true then
    if s.animator.current_animation_name ≠ "dead" then
      { s with animator := s.animator.play_animation "dead" true }
    else s
  else ((s.anim_hit_frame).anim_special_hit_frame).anim_choose

/-- `Character.update(dt, player_input)`. -/
def Character.update (s : Character) (dt : ℚ) (inp : PlayerInput) : Character :=
  if s.is_dead = true then { s with animator := s.animator.update dt }
  else ((((s.handle_input inp dt).update_physics dt).update_combat dt).update_animations dt)

/-- `Character.start_stun(duration)` (`none` is Python's default `None`). -/
def Character.start_stun (s : Character) (duration : Option ℚ) : Character :=
  if s.is_dead = true then s
  else
    let s : Character :=
      { s with is_stunned := true, is_blocking := false,
               stun_duration := duration.getD s.stun_time }
    if s.animator.has "stun" then { s with animator := s.animator.play_animation "stun" true }
    else if s.animator.has "hit" then { s with animator := s.animator.play_animation "hit" true }
    else s

/-- `take_damage`'s local `is_effective_block` computation: blocking, alive,
and facing the attacker. -/
def Character.effective_block (s : Character) (attacker_x : ℚ) : Bool :=
  if s.is_blocking = true ∧ s.is_dead = false then
    if s.facing_right = true ∧ s.x < attacker_x then true
    else if s.facing_right = false ∧ attacker_x < s.x then true
    else false
  else false

/-- `Character.take_damage(damage, attacker_x)`: returns the updated state and
the Python return value (`True` iff damage was applied). -/
def Character.take_damage (s : Character) (damage : ℤ) (attacker_x : ℚ) : Character × Bool :=
  let is_effective_block : Bool := s.effective_block attacker_x
  if is_effective_block = true then (s, false)
  else if s.is_dead = false then
    let s : Character := { s with health := max 0 (s.health - damage) }
    if s.health ≤ (0 : ℤ) then
      ({ s with is_dead := true, animator := s.animator.play_animation "dead" true }, true)
    else
      ({ s with is_hit := true, hit_duration := s.hit_animation_time,
                animator := s.animator.play_animation "hit" true }, true)
  else (s, false)

/-- `Character.is_death_animation_finished()`. -/
def Character.is_death_animation_finished (s : Character) : Bool :=
  if s.is_dead = false then false
  else
    (s.animator.current_animation_name == "dead") &&
      (match s.animator.current with
       | some a => a.is_finished
       | none => false)

/-- An integer-coordinate rectangle, as `pygame.Rect` (float arguments are
truncated toward zero by pygame's C int conversion). -/
structure Rect where
  x : ℤ
  y : ℤ
  w : ℤ
  h : ℤ

/-- `pygame.Rect(x, y, w, h)` from float positions and int sizes. -/
def mkRect (x y : ℚ) (w h : ℤ) : Rect :=
  { x := ratTrunc x, y := ratTrunc y, w := w, h := h }

/-- `pygame.Rect.colliderect`: true when the overlap has positive area
(touching edges do not collide). -/
def Rect.colliderect (a b : Rect) : Bool :=
  decide (a.x < b.x + b.w) && decide (b.x < a.x + a.w) &&
    decide (a.y < b.y + b.h) && decide (b.y < a.y + a.h)

/-- `Character.get_rect()`. -/
def Character.get_rect (s : Character) : Rect :=
  mkRect s.x s.y s.width s.height

/-- `Character.get_attack_rect()`. -/
def Character.get_attack_rect (s : Character) : Option Rect :=
  if s.is_attacking = false ∨ s.can_hit = false then none
  else
    let attack_width : ℤ := 25
    let attack_height : ℤ := 15
    let attack_x : ℚ :=
      if s.facing_right then s.x + (s.width : ℚ) else s.x - (attack_width : ℚ)
    let attack_y : ℚ := s.y + ((s.height.fdiv 2 : ℤ) : ℚ) - ((attack_height.fdiv 2 : ℤ) : ℚ)
    some (mkRect attack_x attack_y attack_width attack_height)

/-- `Character.get_special_attack_rect()`. -/
def Character.get_special_attack_rect (s : Character) : Option Rect :=
  if s.is_special_attacking = false ∨ s.can_special_hit = false then none
  else
    let attack_width : ℤ := 40
    let attack_height : ℤ := 25
    let attack_x : ℚ :=
      if s.facing_right then s.x + (s.width : ℚ) else s.x - (attack_width : ℚ)
    let attack_y : ℚ := s.y + ((s.height.fdiv 2 : ℤ) : ℚ) - ((attack_height.fdiv 2 : ℤ) : ℚ)
    some (mkRect attack_x attack_y attack_width attack_height)

/-- The animation table installed by a successful `Samurai1.load_sprites` /
`Samurai2.load_sprites` (insertion order of `add_animation` calls; frame
counts and per-frame durations as coded; the final `block` entry shares the
idle clip's parameters). -/
def samuraiAnimator : SpriteAnimator :=
  { animations :=
      [("idle", Animation.mk0 8 0.15),
       ("attack", { Animation.mk0 6 0.08 with loop := false }),
       ("special_attack", { Animation.mk0 6 0.12 with loop := false }),
       ("walk", Animation.mk0 8 0.1),
       ("dead", { Animation.mk0 6 0.15 with loop := false }),
       ("hit", { Animation.mk0 4 0.1 with loop := false }),
       ("stun", Animation.mk0 4 0.2),
       ("jump", { Animation.mk0 2 0.15 with loop := false }),
       ("block", Animation.mk0 8 0.15)],
    current_animation_name := "idle" }

/-- `Character.__init__(x, y, facing_right)` stat defaults.  `width`/`height`
keep the base 32×48 defaults: the sprite sheets that would override them are
binary assets outside the source tree. -/
def Character.mk0 (x y : ℚ) (facing_right : Bool) : Character :=
  { x := x, y := y, velocity_x := 0, velocity_y := 0, facing_right := facing_right,
    health := 100, max_health := 100, speed := 200, jump_power := 650,
    jump_stamina_cost := 20,
    is_attacking := false, is_blocking := false, is_dead := false, is_hit := false,
    hit_duration := 0, hit_animation_time := 0.4,
    attack_cooldown := 0, attack_duration := 0.48, attack_cooldown_time := 0.5,
    current_attack_id := 0, attack_hit_frame := 4, can_hit := false,
    is_special_attacking := false, special_attack_cooldown := 0,
    special_attack_duration := 0.72, special_attack_cooldown_time := 10,
    current_special_attack_id := 0, special_attack_hit_frame := 4,
    can_special_hit := false,
    stamina := 100, max_stamina := 100, stamina_per_block := 50,
    stamina_regen_rate := 25,
    god_mode := false, is_stunned := false, stun_duration := 0, stun_time := 2.5,
    last_block_time := 0,
    gravity := 800, ground_y := 335, on_ground := true,
    width := 32, height := 48,
    animator := samuraiAnimator, last_attack_id := -1, last_special_attack_id := -1 }

/-- `Samurai1.__init__(x, y)`: the player fighter (faster, faces right). -/
def samurai1 (x y : ℚ) : Character :=
  { Character.mk0 x y true with speed := 250 }

/-- `Samurai2.__init__(x, y)`: the AI fighter (slower, faces left). -/
def samurai2 (x y : ℚ) : Character :=
  { Character.mk0 x y false with speed := 180 }

/-- `game/scenes.py`, class `FightScene` (round/match controller state for the
level-1 duel).  Presentation-only fields (fonts, background, pause blink) are
omitted; `player1`/`player2` are the two combatants created in `__init__`. -/
structure FightState where
  player1 : Character
  player2 : Character
  player_wins : ℕ
  ai_wins : ℕ
  wins_needed : ℕ
  current_round : ℕ
  round_time : ℚ
  round_over : Bool
  round_winner : Option String
  match_over : Bool
  match_winner : Option String
  round_end_timer : ℚ
  round_end_duration : ℚ
  showing_dialogue : Bool
  dialogue_phase : String
  dialogue_timer : ℚ
  dialogue_complete : Bool

/-- `FightScene.__init__` round/match bookkeeping with the two samurai. -/
def FightState.mk0 : FightState :=
  { player1 := samurai1 150 335, player2 := samurai2 600 335,
    player_wins := 0, ai_wins := 0, wins_needed := 3, current_round := 1,
    round_time := 99, round_over := false, round_winner := none,
    match_over := false, match_winner := none,
    round_end_timer := 0, round_end_duration := 2.5,
    showing_dialogue := false, dialogue_phase := "threat", dialogue_timer := 0,
    dialogue_complete := false }

/-- `FightScene._handle_combat()`, first block: player normal attack vs AI. -/
def FightState.combat_p1_attack (s : FightState) : FightState :=
  match s.player1.get_attack_rect with
  | some r =>
    if r.colliderect s.player2.get_rect then
      let damage : ℤ := if s.player1.god_mode then 100 else 3
      let res := s.player2.take_damage damage s.player1.x
      let s : FightState := { s with player2 := res.1 }
      if res.2 then { s with player1 := { s.player1 with can_hit := false } } else s
    else s
  | none => s

/-- `FightScene._handle_combat()`, second block: player special attack vs AI. -/
def FightState.combat_p1_special (s : FightState) : FightState :=
  match s.player1.get_special_attack_rect with
  | some r =>
    if r.colliderect s.player2.get_rect then
      let damage : ℤ := if s.player1.god_mode then 100 else 8
      let res := s.player2.take_damage damage s.player1.x
      let s : FightState := { s with player2 := res.1 }
      if res.2 then { s with player1 := { s.player1 with can_special_hit := false } } else s
    else s
  | none => s

/-- `FightScene._handle_combat()`, third block: AI normal attack vs player. -/
def FightState.combat_p2_attack (s : FightState) : FightState :=
  match s.player2.get_attack_rect with
  | some r =>
    if r.colliderect s.player1.get_rect then
      let res := s.player1.take_damage 3 s.player2.x
      let s : FightState := { s with player1 := res.1 }
      if res.2 then { s with player2 := { s.player2 with can_hit := false } } else s
    else s
  | none => s

/-- `FightScene._handle_combat()`, fourth block: AI special attack vs player. -/
def FightState.combat_p2_special (s : FightState) : FightState :=
  match s.player2.get_special_attack_rect with
  | some r =>
    if r.colliderect s.player1.get_rect then
      let res := s.player1.take_damage 8 s.player2.x
      let s : FightState := { s with player1 := res.1 }
      if res.2 then { s with player2 := { s.player2 with can_special_hit := false } } else s
    else s
  | none => s

/-- `FightScene._handle_combat()`: the four hitbox/damage resolution blocks in
source order (player normal, player special, AI normal, AI special). -/
def FightState.handle_combat (s : FightState) : FightState :=
  (((s.combat_p1_attack).combat_p1_special).combat_p2_attack).combat_p2_special

/-- `FightScene._end_round(result)`. -/
def FightState.end_round (s : FightState) (result : String) : FightState :=
  let s : FightState := { s with round_over := true, round_end_timer := 0 }
  let s : FightState :=
    if result = "player_win" then
      { s with round_winner := some "Player", player_wins := s.player_wins + 1 }
    else if result = "ai_win" then
      { s with round_winner := some "Evil Twin", ai_wins := s.ai_wins + 1 }
    else if result = "time" then
      if s.player2.health < s.player1.health then
        { s with round_winner := some "Player", player_wins := s.player_wins + 1 }
      else if s.player1.health < s.player2.health then
        { s with round_winner := some "Evil Twin", ai_wins := s.ai_wins + 1 }
      else { s with round_winner := some "Draw" }
    else s
  if s.wins_needed ≤ s.player_wins then
    { s with showing_dialogue := true, dialogue_phase := "threat", dialogue_timer := 0 }
  else if s.wins_needed ≤ s.ai_wins then
    { s with match_over := true, match_winner := some "Evil Twin" }
  else s

/-- `FightScene._start_new_round()`. -/
def FightState.start_new_round (s : FightState) : FightState :=
  if s.match_over = true then s
  else
    { s with
      current_round := s.current_round + 1, round_over := false, round_winner := none,
      round_time := 99,
      player1 :=
        { s.player1 with x := 0, y := 335, health := s.player1.max_health,
                         velocity_x := 0, velocity_y := 0, is_attacking := false,
                         is_blocking := false, attack_cooldown := 0, on_ground := true,
                         is_dead := false },
      player2 :=
        { s.player2 with x := 600, y := 335, health := s.player2.max_health,
                         velocity_x := 0, velocity_y := 0, is_attacking := false,
                         is_blocking := false, attack_cooldown := 0, on_ground := true,
                         is_dead := false } }

/-- `FightScene.update_dialogue(dt)`. -/
def FightState.update_dialogue (s : FightState) (dt : ℚ) : FightState :=
  if s.showing_dialogue = false then s
  else
    let s : FightState := { s with dialogue_timer := s.dialogue_timer + dt }
    let s : FightState :=
      if s.dialogue_phase = "threat" ∧ (3 : ℚ) ≤ s.dialogue_timer then
        { s with dialogue_phase := "choices", dialogue_timer := 0 }
      else s
    if s.dialogue_complete = true then
      { s with match_over := true, match_winner := some "Player", showing_dialogue := false }
    else s

/-- `FightScene.update(dt, player1_input, player2_input)`. -/
def FightState.update (s : FightState) (dt : ℚ) (i1 i2 : PlayerInput) : FightState :=
  if s.match_over = true then s
  else if s.round_over = true then
    let s : FightState :=
      { s with round_end_timer := s.round_end_timer + dt,
               player1 := s.player1.update dt i1, player2 := s.player2.update dt i2 }
    if s.round_end_duration ≤ s.round_end_timer then s.start_new_round else s
  else
    let s : FightState :=
      { s with player1 := s.player1.update dt i1, player2 := s.player2.update dt i2 }
    let s : FightState := s.handle_combat
    let s : FightState := { s with round_time := s.round_time - dt }
    let s : FightState :=
      if s.round_time ≤ 0 then ({ s with round_time := 0 }).end_round "time" else s
    if s.player1.health ≤ 0 ∧ s.player1.is_dead = false then s
    else if s.player2.health ≤ 0 ∧ s.player2.is_dead = false then s
    else if s.player1.is_dead = true ∧ s.player1.is_death_animation_finished = true then
      s.end_round "ai_win"
    else if s.player2.is_dead = true ∧ s.player2.is_death_animation_finished = true then
      s.end_round "player_win"
    else s

/-- `game/scenes.py`, class `Level2Scene` (round/match controller for the
level-2 fight).  `ground_loaded` stands for `self.ground_image is not None`;
the write-only `stun_timer` attribute set by `_start_next_round` (never read
anywhere) is not part of the state. -/
structure Level2State where
  player1 : Character
  player2 : Character
  player_wins : ℕ
  ai_wins : ℕ
  wins_needed : ℕ
  current_round : ℕ
  round_time : ℚ
  round_over : Bool
  round_winner : Option String
  match_over : Bool
  match_winner : Option String
  round_end_timer : ℚ
  round_end_duration : ℚ
  showing_dialogue : Bool
  dialogue_timer : ℚ
  ground_loaded : Bool
  ground_top_y : ℚ
  spawn_offset_player : ℚ
  spawn_offset_enemy : ℚ

/-- `Level2Scene._is_facing_target(attacker, target)`. -/
def level2IsFacingTarget (attacker target : Character) : Bool :=
  if attacker.facing_right = true ∧ attacker.x < target.x then true
  else if attacker.facing_right = false ∧ target.x < attacker.x then true
  else false

/-- `Level2Scene._deal_damage(target, damage)`. -/
def level2DealDamage (target : Character) (damage : ℤ) : Character :=
  let target : Character :=
    { target with health := max 0 (target.health - damage), is_hit := true,
                  hit_duration := target.hit_animation_time }
  if target.health ≤ (0 : ℤ) then { target with is_dead := true } else target

/-- `Level2Scene._check_collisions()`, first block: player 1 attacking
player 2 (`distance` was computed once at the top of the method). -/
def Level2State.collide_p1 (s : Level2State) (distance : ℚ) : Level2State :=
  if s.player1.is_attacking = true ∧ s.player1.can_hit = true ∧ distance < 60 ∧
      level2IsFacingTarget s.player1 s.player2 = true then
    if s.player2.is_blocking = true then
      let s : Level2State := { s with player1 := { s.player1 with can_hit := false } }
      let s : Level2State :=
        { s with player2 := { s.player2 with stamina := max 0 (s.player2.stamina - 50) } }
      if s.player2.stamina ≤ 0 then { s with player2 := s.player2.start_stun none } else s
    else
      let damage : ℤ := if s.player1.god_mode = false then 25 else 100
      { s with player2 := level2DealDamage s.player2 damage,
               player1 := { s.player1 with can_hit := false } }
  else s

/-- `Level2Scene._check_collisions()`, second block: player 2 attacking
player 1. -/
def Level2State.collide_p2 (s : Level2State) (distance : ℚ) : Level2State :=
  if s.player2.is_attacking = true ∧ s.player2.can_hit = true ∧ distance < 60 ∧
      level2IsFacingTarget s.player2 s.player1 = true then
    if s.player1.is_blocking = true then
      let s : Level2State := { s with player2 := { s.player2 with can_hit := false } }
      let s : Level2State :=
        { s with player1 := { s.player1 with stamina := max 0 (s.player1.stamina - 50) } }
      if s.player1.stamina ≤ 0 then { s with player1 := s.player1.start_stun none } else s
    else
      { s with player1 := level2DealDamage s.player1 25,
               player2 := { s.player2 with can_hit := false } }
  else s

/-- `Level2Scene._check_collisions()`: distance gate computed once over the
incoming positions, then the two resolution blocks in source order. -/
def Level2State.check_collisions (s : Level2State) : Level2State :=
  let distance := |s.player1.x - s.player2.x|
  (s.collide_p1 distance).collide_p2 distance

/-- `Level2Scene._end_round(reason)`. -/
def Level2State.end_round (s : Level2State) (reason : String) : Level2State :=
  let s : Level2State := { s with round_over := true, round_end_timer := 0 }
  let s : Level2State :=
    if reason = "player_wins" then
      { s with round_winner := some "Player", player_wins := s.player_wins + 1 }
    else if reason = "ai_wins" then
      { s with round_winner := some "Yellow Ninja", ai_wins := s.ai_wins + 1 }
    else
      if s.player2.health < s.player1.health then
        { s with round_winner := some "Player", player_wins := s.player_wins + 1 }
      else if s.player1.health < s.player2.health then
        { s with round_winner := some "Block Enemy", ai_wins := s.ai_wins + 1 }
      else { s with round_winner := some "Draw" }
  if s.wins_needed ≤ s.player_wins then
    { s with match_over := true, match_winner := some "Player",
             dialogue_timer := 0, showing_dialogue := true }
  else if s.wins_needed ≤ s.ai_wins then
    { s with match_over := true, match_winner := some "Yellow Ninja" }
  else s

/-- `Level2Scene._start_next_round()`. -/
def Level2State.start_next_round (s : Level2State) : Level2State :=
  let s : Level2State :=
    { s with current_round := s.current_round + 1, round_over := false,
             round_winner := none, round_time := 99 }
  let p1g : ℚ :=
    if s.ground_loaded then (s.ground_top_y + s.spawn_offset_player) - (s.player1.height : ℚ)
    else 335 + s.spawn_offset_player
  let s : Level2State :=
    { s with player1 :=
      { s.player1 with x := 0, ground_y := p1g, y := p1g,
                       health := s.player1.max_health, velocity_x := 0, velocity_y := 0,
                       is_attacking := false, is_blocking := false, attack_cooldown := 0,
                       on_ground := true, is_dead := false, is_hit := false,
                       stamina := s.player1.max_stamina, is_stunned := false } }
  let p2y : ℚ :=
    if s.ground_loaded then (s.ground_top_y + s.spawn_offset_enemy) - (s.player2.height : ℚ)
    else 335 + s.spawn_offset_enemy
  { s with player2 :=
    { s.player2 with x := 600, y := p2y,
                     health := s.player2.max_health, velocity_x := 0, velocity_y := 0,
                     is_attacking := false, is_blocking := false, attack_cooldown := 0,
                     on_ground := true, is_dead := false, is_hit := false,
                     stamina := s.player2.max_stamina, is_stunned := false } }

/-- One core operation on a combatant, as driven by the scene loop:
a tick of `Character.update` or a mediator call to `take_damage`. -/
inductive CharOp where
  | upd (dt : ℚ) (inp : PlayerInput)
  | dmg (amount : ℤ) (attacker_x : ℚ)

/-- Apply one operation. -/
def CharOp.apply (s : Character) : CharOp → Character
  | .upd dt inp => s.update dt inp
  | .dmg amount attacker_x => (s.take_damage amount attacker_x).1

/-- Validity of an operation's inputs: the scene loop only passes
non-negative frame deltas and non-negative damage amounts. -/
def CharOp.valid : CharOp → Prop
  | .upd dt _ => 0 ≤ dt
  | .dmg amount _ => 0 ≤ amount

/-- Apply a sequence of operations in order. -/
def applyOps (s : Character) : List CharOp → Character
  | [] => s
  | op :: rest => applyOps (op.apply s) rest

/-- Health within `[0, max_health]`, stamina within `[0, max_stamina]`, and
the (constant) stamina-economy parameters non-negative as every constructed
character has them (50 / 20 / 25). -/
def VitalsInRange (s : Character) : Prop :=
  0 ≤ s.health ∧ s.health ≤ s.max_health ∧
  0 ≤ s.stamina ∧ s.stamina ≤ s.max_stamina ∧
  0 ≤ s.stamina_per_block ∧ 0 ≤ s.jump_stamina_cost ∧ 0 ≤ s.stamina_regen_rate

/-- Concrete mid-attack attacker for the multi-hit trace: attack instance 1 is
active with `0.1`s remaining, its (non-looping) attack clip sits on the hit
frame (frame 4 of 6) and the mediator has just consumed one damage
application (`can_hit = false`). -/
def exC1attacker : Character :=
  { samurai1 100 335 with
      is_attacking := true, can_hit := false, attack_duration := 0.1,
      current_attack_id := 1, last_attack_id := 1,
      animator :=
        { samuraiAnimator with
            current_animation_name := "attack",
            animations := animSet samuraiAnimator.animations "attack"
              { frames := 6, frame_duration := 0.08, current_frame := 4,
                time_since_last_frame := 0, is_playing := true, loop := false } } }

/-- Concrete defender standing inside the attacker's reach, not blocking,
having already taken the attack's first 3-damage application (100 → 97). -/
def exC1defender : Character :=
  { samurai2 140 335 with
      health := 97, is_hit := true, hit_duration := 0.4,
      animator := { samuraiAnimator with current_animation_name := "hit" } }

/-- The fight scene holding the two combatants above, mid-round. -/
def exC1fight : FightState :=
  { FightState.mk0 with player1 := exC1attacker, player2 := exC1defender }

/-- One 10ms scene tick after `exC1fight`. -/
def exC1tick1 : FightState :=
  exC1fight.update (1/100) PlayerInput.neutral PlayerInput.neutral

/-- Two 10ms scene ticks after `exC1fight`. -/
def exC1tick2 : FightState :=
  exC1tick1.update (1/100) PlayerInput.neutral PlayerInput.neutral

/-- A blocking, left-facing defender with an attacker on its left:
an effective block. -/
def exBlocker : Character := { samurai2 140 335 with is_blocking := true }

/-- An attacker mid-swing with the hit latch enabled, in reach of a defender
at `x = 140`. -/
def exLatchedAttacker : Character :=
  { samurai1 100 335 with is_attacking := true, can_hit := true, attack_duration := 0.1 }

/-- Fight scene: latched attacker vs effective blocker. -/
def exC4fight : FightState :=
  { FightState.mk0 with player1 := exLatchedAttacker, player2 := exBlocker }

/-- Level-2 scene: latched attacker vs effective blocker, within the 60px
distance gate. -/
def exC4level2 : Level2State :=
  { player1 := exLatchedAttacker, player2 := exBlocker,
    player_wins := 0, ai_wins := 0, wins_needed := 3, current_round := 1,
    round_time := 99, round_over := false, round_winner := none,
    match_over := false, match_winner := none,
    round_end_timer := 0, round_end_duration := 2.5,
    showing_dialogue := false, dialogue_timer := 0,
    ground_loaded := false, ground_top_y := 0,
    spawn_offset_player := 300, spawn_offset_enemy := 265 }

/-- A post-round fight state: the player ended the round stunned, hit-reacting
and with 30 stamina; neither side has 3 wins. -/
def exC5fight : FightState :=
  { FightState.mk0 with
      player1 :=
        { samurai1 150 335 with
            stamina := 30, is_stunned := true, stun_duration := 1,
            is_hit := true, hit_duration := 0.2 },
      player_wins := 1, ai_wins := 1, round_over := true, round_end_timer := 2.5 }

/-- A level-2 state matching `exC5fight`'s situation (used for the amended
reset behaviour on the level-2 controller). -/
def exC5level2 : Level2State :=
  { exC4level2 with
      player1 :=
        { samurai1 150 335 with
            stamina := 30, is_stunned := true, stun_duration := 1,
            is_hit := true, hit_duration := 0.2 },
      player2 := samurai2 600 335,
      player_wins := 1, ai_wins := 1, round_over := true, round_end_timer := 2.5 }

/-- A fight state in which the player has 2 round wins and is about to win the
third round. -/
def exC6fight : FightState :=
  { FightState.mk0 with player_wins := 2, ai_wins := 0 }

/-- A level-2 state in which the player has 2 round wins. -/
def exC6level2 : Level2State :=
  { exC4level2 with player_wins := 2, ai_wins := 0 }

/-- A freshly spawned player fighter (full health and stamina, idle). -/
def exIdle : Character := samurai1 150 335

/-- A blocking fighter with exactly the jump stamina cost left (20):
jumping in the same tick as an attack press stuns it before the attack
gate is evaluated. -/
def exC9jumpStun : Character := { samurai1 150 335 with is_blocking := true, stamina := 20 }

/-- A blocking fighter with full stamina (the amended claim's witness state). -/
def exC9blocker : Character := { samurai1 150 335 with is_blocking := true }

theorem take_damage_blocked (s : Character) (d : ℤ) (ax : ℚ)
    (h : s.effective_block ax = true) : s.take_damage d ax = (s, false) := by
  simp [Character.take_damage, h]

theorem take_damage_applied (s : Character) (d : ℤ) (ax : ℚ)
    (hd : s.is_dead = false) (h : s.effective_block ax = false) :
    (s.take_damage d ax).2 = true := by
  simp only [Character.take_damage, h, hd]
  split_ifs <;> simp_all

theorem take_damage_can_hit (s : Character) (d : ℤ) (ax : ℚ) :
    (s.take_damage d ax).1.can_hit = s.can_hit := by
  simp only [Character.take_damage]
  split_ifs <;> simp

theorem take_damage_can_special_hit (s : Character) (d : ℤ) (ax : ℚ) :
    (s.take_damage d ax).1.can_special_hit = s.can_special_hit := by
  simp only [Character.take_damage]
  split_ifs <;> simp

theorem take_damage_keeps_health_on_block (s : Character) (d : ℤ) (ax : ℚ)
    (h : s.effective_block ax = true) : (s.take_damage d ax).1.health = s.health := by
  rw [take_damage_blocked s d ax h]

theorem start_stun_keeps_latch (s : Character) (d : Option ℚ) :
    (s.start_stun d).can_hit = s.can_hit := by
  simp only [Character.start_stun]
  split_ifs <;> simp

theorem deal_damage_keeps_latch (s : Character) (d : ℤ) :
    (level2DealDamage s d).can_hit = s.can_hit := by
  simp only [level2DealDamage]
  split_ifs <;> simp

/-- Claim C10: `Animation.update` advances `current_frame` by at most one per
call however large `dt` is, and does not advance at all while the accumulated
`time_since_last_frame + dt` has not crossed `frame_duration`; so the frame
index depends on how many update calls crossed the threshold, not on the
elapsed time inside one call. -/
theorem C10_frame_advances_at_most_one (a : Animation) (dt : ℚ) :
    (a.update dt).current_frame ≤ a.current_frame + 1 ∧
    (a.time_since_last_frame + dt < a.frame_duration →
      (a.update dt).current_frame = a.current_frame) := by
  constructor
  · simp only [Animation.update]
    split_ifs <;> simp <;> omega
  · intro hlt
    simp only [Animation.update]
    split_ifs <;> first | rfl | linarith

/-- Witness for C10 at a concrete 6-frame 0.08s/frame attack clip and a 10ms
tick. -/
theorem C10_witness :
    (Animation.update (Animation.mk0 6 0.08) (1/100)).current_frame ≤
      (Animation.mk0 6 0.08).current_frame + 1 ∧
    ((Animation.mk0 6 0.08).time_since_last_frame + 1/100 <
        (Animation.mk0 6 0.08).frame_duration →
      (Animation.update (Animation.mk0 6 0.08) (1/100)).current_frame =
        (Animation.mk0 6 0.08).current_frame) :=
  C10_frame_advances_at_most_one (Animation.mk0 6 0.08) (1/100)








theorem combat_p1_attack_blocked (fs : FightState)
    (hb : fs.player2.effective_block fs.player1.x = true) :
    fs.combat_p1_attack = fs := by
  unfold FightState.combat_p1_attack
  cases hA : fs.player1.get_attack_rect with
  | none => rfl
  | some r =>
    dsimp only
    rw [take_damage_blocked _ _ _ hb]
    split_ifs <;> simp_all

theorem combat_p1_special_blocked (fs : FightState)
    (hb : fs.player2.effective_block fs.player1.x = true) :
    fs.combat_p1_special = fs := by
  unfold FightState.combat_p1_special
  cases hA : fs.player1.get_special_attack_rect with
  | none => rfl
  | some r =>
    dsimp only
    rw [take_damage_blocked _ _ _ hb]
    split_ifs <;> simp_all

theorem combat_p2_attack_keeps (fs : FightState) :
    (fs.combat_p2_attack).player1.can_hit = fs.player1.can_hit ∧
    (fs.combat_p2_attack).player2.health = fs.player2.health := by
  unfold FightState.combat_p2_attack
  cases hA : fs.player2.get_attack_rect with
  | none => exact ⟨rfl, rfl⟩
  | some r =>
    dsimp only
    split_ifs <;> simp [take_damage_can_hit]

theorem combat_p2_special_keeps (fs : FightState) :
    (fs.combat_p2_special).player1.can_hit = fs.player1.can_hit ∧
    (fs.combat_p2_special).player2.health = fs.player2.health := by
  unfold FightState.combat_p2_special
  cases hA : fs.player2.get_special_attack_rect with
  | none => exact ⟨rfl, rfl⟩
  | some r =>
    dsimp only
    split_ifs <;> simp [take_damage_can_hit]

theorem combat_p1_attack_hit_clears (fs : FightState) (r : Rect)
    (hA : fs.player1.get_attack_rect = some r)
    (hc : r.colliderect fs.player2.get_rect = true)
    (hd : fs.player2.is_dead = false)
    (heff : fs.player2.effective_block fs.player1.x = false) :
    (fs.combat_p1_attack).player1.can_hit = false := by
  unfold FightState.combat_p1_attack
  rw [hA]
  dsimp only
  rw [take_damage_applied _ _ _ hd heff]
  simp [hc]

theorem combat_p1_special_keeps_can_hit (fs : FightState) :
    (fs.combat_p1_special).player1.can_hit = fs.player1.can_hit := by
  unfold FightState.combat_p1_special
  cases hA : fs.player1.get_special_attack_rect with
  | none => rfl
  | some r =>
    dsimp only
    split_ifs <;> rfl

theorem fight_block_keeps_latch (fs : FightState)
    (hb : fs.player2.effective_block fs.player1.x = true) :
    (fs.handle_combat).player1.can_hit = fs.player1.can_hit ∧
    (fs.handle_combat).player2.health = fs.player2.health := by
  unfold FightState.handle_combat
  rw [combat_p1_attack_blocked fs hb, combat_p1_special_blocked fs hb]
  have h3 := combat_p2_attack_keeps fs
  have h4 := combat_p2_special_keeps fs.combat_p2_attack
  exact ⟨h4.1.trans h3.1, h4.2.trans h3.2⟩

theorem fight_hit_clears_latch (fs : FightState) (rA : Rect)
    (hA : fs.player1.get_attack_rect = some rA)
    (hc : rA.colliderect fs.player2.get_rect = true)
    (hd : fs.player2.is_dead = false)
    (heff : fs.player2.effective_block fs.player1.x = false) :
    (fs.handle_combat).player1.can_hit = false := by
  unfold FightState.handle_combat
  have h1 := combat_p1_attack_hit_clears fs rA hA hc hd heff
  have h2 := combat_p1_special_keeps_can_hit fs.combat_p1_attack
  have h3 := (combat_p2_attack_keeps (fs.combat_p1_attack).combat_p1_special).1
  have h4 := (combat_p2_special_keeps
    ((fs.combat_p1_attack).combat_p1_special).combat_p2_attack).1
  rw [h4, h3, h2, h1]

theorem collide_p1_clears (ls : Level2State) (dist : ℚ)
    (h1 : ls.player1.is_attacking = true) (h2 : ls.player1.can_hit = true)
    (h3 : dist < 60) (h4 : level2IsFacingTarget ls.player1 ls.player2 = true) :
    (ls.collide_p1 dist).player1.can_hit = false := by
  unfold Level2State.collide_p1
  rw [if_pos ⟨h1, h2, h3, h4⟩]
  dsimp only
  split_ifs <;> rfl

theorem collide_p2_keeps_can_hit (ls : Level2State) (dist : ℚ) :
    (ls.collide_p2 dist).player1.can_hit = ls.player1.can_hit := by
  unfold Level2State.collide_p2
  dsimp only
  split_ifs <;> simp [start_stun_keeps_latch, deal_damage_keeps_latch]

theorem level2_resolution_clears_latch (ls : Level2State)
    (h1 : ls.player1.is_attacking = true) (h2 : ls.player1.can_hit = true)
    (h3 : |ls.player1.x - ls.player2.x| < 60)
    (h4 : level2IsFacingTarget ls.player1 ls.player2 = true) :
    (ls.check_collisions).player1.can_hit = false := by
  unfold Level2State.check_collisions
  rw [collide_p2_keeps_can_hit, collide_p1_clears ls _ h1 h2 h3 h4]

/-- Claim C4 (amended): in `FightScene._handle_combat` the attacker's
hit-latch is cleared in the same tick only when the attack resolves as a
damaging hit (`take_damage` returns `True`); an effective block leaves the
latch set (and the defender's health untouched).  Only
`Level2Scene._check_collisions` clears the latch on both a damaging hit and
a block. -/
theorem C4_latch_cleared_on_hit_only (fs : FightState) (ls : Level2State) :
    (fs.player2.effective_block fs.player1.x = true →
      (fs.handle_combat).player1.can_hit = fs.player1.can_hit ∧
      (fs.handle_combat).player2.health = fs.player2.health) ∧
    (∀ r : Rect, fs.player1.get_attack_rect = some r →
      r.colliderect fs.player2.get_rect = true →
      fs.player2.is_dead = false →
      fs.player2.effective_block fs.player1.x = false →
      (fs.handle_combat).player1.can_hit = false) ∧
    (ls.player1.is_attacking = true → ls.player1.can_hit = true →
      |ls.player1.x - ls.player2.x| < 60 →
      level2IsFacingTarget ls.player1 ls.player2 = true →
      (ls.check_collisions).player1.can_hit = false) :=
  ⟨fun hb => fight_block_keeps_latch fs hb,
   fun r hA hc hd heff => fight_hit_clears_latch fs r hA hc hd heff,
   fun h1 h2 h3 h4 => level2_resolution_clears_latch ls h1 h2 h3 h4⟩


/-- Claim C7 (amended): `take_damage` returns `True` exactly when a damaging
hit is applied (defender alive and not effectively blocking).  An effective
block leaves the defender's state completely unchanged and returns `False` —
distinct from a damaging hit's `True`, though the same value as the
already-dead case — and an already-dead defender also gets `False`. -/
theorem C7_take_damage_return_value (s : Character) (d : ℤ) (ax : ℚ) :
    ((s.take_damage d ax).2 = true ↔
      (s.is_dead = false ∧ s.effective_block ax = false)) ∧
    (s.effective_block ax = true →
      (s.take_damage d ax).1 = s ∧ (s.take_damage d ax).2 = false) ∧
    (s.is_dead = true → (s.take_damage d ax).2 = false) := by
  simp only [Character.take_damage]
  split_ifs with h1 h2 <;> simp_all


/-- Claim C5 (amended): when the end-of-round delay elapses with neither side
at the win threshold, `FightScene._start_new_round` resets both combatants'
positions, health, velocities, attacking/blocking flags, attack cooldown and
dead flag — but carries over stamina, the stunned flag and the hit-reaction
flag unchanged.  Only `Level2Scene._start_next_round` additionally resets
stamina, stunned and hit-reacting. -/
theorem C5_round_reset_scope (fs : FightState) (ls : Level2State)
    (h : fs.match_over = false) :
    ((fs.start_new_round).round_over = false ∧
     (fs.start_new_round).player1.x = 0 ∧ (fs.start_new_round).player1.y = 335 ∧
     (fs.start_new_round).player1.health = fs.player1.max_health ∧
     (fs.start_new_round).player1.velocity_x = 0 ∧
     (fs.start_new_round).player1.velocity_y = 0 ∧
     (fs.start_new_round).player1.is_attacking = false ∧
     (fs.start_new_round).player1.is_blocking = false ∧
     (fs.start_new_round).player1.attack_cooldown = 0 ∧
     (fs.start_new_round).player1.on_ground = true ∧
     (fs.start_new_round).player1.is_dead = false ∧
     (fs.start_new_round).player2.x = 600 ∧ (fs.start_new_round).player2.y = 335 ∧
     (fs.start_new_round).player2.health = fs.player2.max_health ∧
     (fs.start_new_round).player2.is_attacking = false ∧
     (fs.start_new_round).player2.is_blocking = false ∧
     (fs.start_new_round).player2.is_dead = false) ∧
    ((fs.start_new_round).player1.stamina = fs.player1.stamina ∧
     (fs.start_new_round).player1.is_stunned = fs.player1.is_stunned ∧
     (fs.start_new_round).player1.is_hit = fs.player1.is_hit ∧
     (fs.start_new_round).player2.stamina = fs.player2.stamina ∧
     (fs.start_new_round).player2.is_stunned = fs.player2.is_stunned ∧
     (fs.start_new_round).player2.is_hit = fs.player2.is_hit) ∧
    ((ls.start_next_round).round_over = false ∧
     (ls.start_next_round).player1.x = 0 ∧
     (ls.start_next_round).player1.health = ls.player1.max_health ∧
     (ls.start_next_round).player1.stamina = ls.player1.max_stamina ∧
     (ls.start_next_round).player1.is_attacking = false ∧
     (ls.start_next_round).player1.is_blocking = false ∧
     (ls.start_next_round).player1.is_stunned = false ∧
     (ls.start_next_round).player1.is_hit = false ∧
     (ls.start_next_round).player1.is_dead = false ∧
     (ls.start_next_round).player2.x = 600 ∧
     (ls.start_next_round).player2.health = ls.player2.max_health ∧
     (ls.start_next_round).player2.stamina = ls.player2.max_stamina ∧
     (ls.start_next_round).player2.is_attacking = false ∧
     (ls.start_next_round).player2.is_blocking = false ∧
     (ls.start_next_round).player2.is_stunned = false ∧
     (ls.start_next_round).player2.is_hit = false ∧
     (ls.start_next_round).player2.is_dead = false) := by
  simp [FightState.start_new_round, Level2State.start_next_round, h]


set_option maxHeartbeats 2000000 in
/-- Claim C6 (amended): `Level2Scene._end_round` enters match-over exactly on
the tick a win counter first reaches the threshold, and every `_end_round`
leaves `match_over` unchanged while both resulting counters are still below
the threshold.  `FightScene._end_round`, however, enters match-over
immediately only when the AI's counter reaches the threshold; a `player_win`
(with the AI still short of the threshold) never sets `match_over` on that
tick — it starts the victory dialogue instead, and match-over is entered only
once the dialogue completes (`update_dialogue` leaves `match_over` untouched
while no dialogue is showing). -/
theorem C6_match_over_entry (fs : FightState) (ls : Level2State)
    (res : String) (dt : ℚ) :
    (res = "player_win" → fs.ai_wins < fs.wins_needed →
      (fs.end_round res).match_over = fs.match_over) ∧
    (res = "player_win" → fs.wins_needed ≤ fs.player_wins + 1 →
      (fs.end_round res).showing_dialogue = true) ∧
    (res = "ai_win" → fs.player_wins < fs.wins_needed →
      fs.wins_needed ≤ fs.ai_wins + 1 → (fs.end_round res).match_over = true) ∧
    ((fs.end_round res).player_wins < fs.wins_needed →
      (fs.end_round res).ai_wins < fs.wins_needed →
      (fs.end_round res).match_over = fs.match_over) ∧
    (fs.showing_dialogue = false → (fs.update_dialogue dt).match_over = fs.match_over) ∧
    (res = "player_wins" → ls.wins_needed ≤ ls.player_wins + 1 →
      (ls.end_round res).match_over = true) ∧
    (res = "ai_wins" → ls.wins_needed ≤ ls.ai_wins + 1 →
      (ls.end_round res).match_over = true) ∧
    ((ls.end_round res).player_wins < ls.wins_needed →
      (ls.end_round res).ai_wins < ls.wins_needed →
      (ls.end_round res).match_over = ls.match_over) := by
  refine ⟨fun hres ha => ?_, fun hres hw => ?_, fun hres hp hw => ?_, fun h1 h2 => ?_,
         fun hs => ?_, fun hres hw => ?_, fun hres hw => ?_, fun h1 h2 => ?_⟩
  · simp only [FightState.end_round, hres]
    split_ifs <;> simp_all <;> omega
  · simp only [FightState.end_round, hres]
    split_ifs <;> simp_all <;> omega
  · simp only [FightState.end_round, hres]
    split_ifs <;> simp_all <;> omega
  · simp only [FightState.end_round] at h1 h2 ⊢
    split_ifs at h1 h2 ⊢ <;> simp_all <;> omega
  · unfold FightState.update_dialogue
    rw [if_pos hs]
  · simp only [Level2State.end_round, hres]
    split_ifs <;> simp_all <;> omega
  · simp only [Level2State.end_round, hres]
    split_ifs <;> simp_all <;> omega
  · simp only [Level2State.end_round] at h1 h2 ⊢
    split_ifs at h1 h2 ⊢ <;> simp_all <;> omega

theorem effective_block_iff (s : Character) (ax : ℚ) :
    s.effective_block ax = true ↔
      (s.is_blocking = true ∧ s.is_dead = false ∧
        ((s.facing_right = true ∧ s.x < ax) ∨ (s.facing_right = false ∧ ax < s.x))) := by
  unfold Character.effective_block
  split_ifs <;> simp_all <;> tauto

/-- Claim C2 (confirmed on the states the game reaches, where a dead combatant
has health 0): `take_damage(amount, attacker_x)` leaves health unchanged when
the defender is blocking and facing the attacker (facing right with the
attacker to the right, or facing left with the attacker to the left), and
otherwise subtracts the full amount, clamped at 0. -/
theorem C2_block_gates_damage (s : Character) (dmg : ℤ) (ax : ℚ)
    (hdmg : 0 ≤ dmg) (hdead : s.is_dead = true → s.health = 0) :
    ((s.is_blocking = true ∧
        ((s.facing_right = true ∧ s.x < ax) ∨ (s.facing_right = false ∧ ax < s.x))) →
      (s.take_damage dmg ax).1.health = s.health) ∧
    (¬(s.is_blocking = true ∧
        ((s.facing_right = true ∧ s.x < ax) ∨ (s.facing_right = false ∧ ax < s.x))) →
      (s.take_damage dmg ax).1.health = max 0 (s.health - dmg)) := by
  by_cases hd : s.is_dead = true
  · have h0 : s.health = 0 := hdead hd
    have heb : s.effective_block ax = false := by
      simp [Character.effective_block, hd]
    have hres : s.take_damage dmg ax = (s, false) := by
      simp [Character.take_damage, heb, hd]
    rw [hres]
    exact ⟨fun _ => rfl, fun _ => by simp only [h0]; omega⟩
  · have hd' : s.is_dead = false := by simp_all
    constructor
    · intro hc
      have heb : s.effective_block ax = true :=
        (effective_block_iff s ax).mpr ⟨hc.1, hd', hc.2⟩
      rw [take_damage_blocked _ _ _ heb]
    · intro hc
      have heb : s.effective_block ax = false := by
        cases hB : s.effective_block ax with
        | false => rfl
        | true =>
          rcases (effective_block_iff s ax).mp hB with ⟨h1, _, h3⟩
          exact absurd ⟨h1, h3⟩ hc
      simp only [Character.take_damage, heb, hd']
      split_ifs <;> simp_all

theorem input_block_vitals (s : Character) (inp : PlayerInput)
    (h : VitalsInRange s) : VitalsInRange (s.input_block inp) := by
  obtain ⟨h1, h2, h3, h4, h5, h6, h7⟩ := h
  unfold Character.input_block
  dsimp only
  split_ifs <;>
    refine ⟨h1, h2, ?_, ?_, h5, h6, h7⟩ <;>
    first
      | exact h3
      | exact h4
      | exact le_max_left _ _
      | exact max_le (le_trans h3 h4) (by linarith)

theorem input_move_vitals (s : Character) (inp : PlayerInput)
    (h : VitalsInRange s) : VitalsInRange (s.input_move inp) := by
  unfold Character.input_move
  split_ifs <;> exact h

theorem input_jump_vitals (s : Character) (inp : PlayerInput)
    (h : VitalsInRange s) : VitalsInRange (s.input_jump inp) := by
  obtain ⟨h1, h2, h3, h4, h5, h6, h7⟩ := h
  unfold Character.input_jump
  dsimp only
  split_ifs <;>
    refine ⟨h1, h2, ?_, ?_, h5, h6, h7⟩ <;>
    first
      | exact h3
      | exact h4
      | exact le_max_left _ _
      | exact max_le (le_trans h3 h4) (by linarith)

theorem input_attack_vitals (s : Character) (inp : PlayerInput)
    (h : VitalsInRange s) : VitalsInRange (s.input_attack inp) := by
  unfold Character.input_attack Character.start_attack
  split_ifs <;> exact h

theorem input_special_vitals (s : Character) (inp : PlayerInput)
    (h : VitalsInRange s) : VitalsInRange (s.input_special inp) := by
  unfold Character.input_special Character.start_special_attack
  split_ifs <;> exact h

theorem handle_input_vitals (s : Character) (inp : PlayerInput) (dt : ℚ)
    (h : VitalsInRange s) : VitalsInRange (s.handle_input inp dt) := by
  unfold Character.handle_input
  split_ifs
  · exact h
  · exact input_special_vitals _ _ (input_attack_vitals _ _ (input_jump_vitals _ _
      (input_move_vitals _ _ (input_block_vitals _ _ h))))

theorem update_physics_vitals (s : Character) (dt : ℚ)
    (h : VitalsInRange s) : VitalsInRange (s.update_physics dt) := by
  unfold Character.update_physics Character.phys_gravity Character.phys_integrate
    Character.phys_ground Character.phys_clamp
  dsimp only
  split_ifs <;> exact h

theorem combat_stun_vitals (s : Character) (dt : ℚ)
    (h : VitalsInRange s) : VitalsInRange (s.combat_stun dt) := by
  unfold Character.combat_stun
  dsimp only
  split_ifs <;> exact h

theorem combat_attack_timer_vitals (s : Character) (dt : ℚ)
    (h : VitalsInRange s) : VitalsInRange (s.combat_attack_timer dt) := by
  unfold Character.combat_attack_timer
  dsimp only
  split_ifs <;> exact h

theorem combat_hit_timer_vitals (s : Character) (dt : ℚ)
    (h : VitalsInRange s) : VitalsInRange (s.combat_hit_timer dt) := by
  unfold Character.combat_hit_timer
  dsimp only
  split_ifs <;> exact h

theorem combat_special_timer_vitals (s : Character) (dt : ℚ)
    (h : VitalsInRange s) : VitalsInRange (s.combat_special_timer dt) := by
  unfold Character.combat_special_timer
  dsimp only
  split_ifs <;> exact h

theorem combat_cooldowns_vitals (s : Character) (dt : ℚ)
    (h : VitalsInRange s) : VitalsInRange (s.combat_cooldowns dt) := by
  unfold Character.combat_cooldowns
  dsimp only
  split_ifs <;> exact h

theorem combat_regen_vitals (s : Character) (dt : ℚ) (hdt : 0 ≤ dt)
    (h : VitalsInRange s) : VitalsInRange (s.combat_regen dt) := by
  obtain ⟨h1, h2, h3, h4, h5, h6, h7⟩ := h
  unfold Character.combat_regen
  dsimp only
  split_ifs <;>
    refine ⟨h1, h2, ?_, ?_, h5, h6, h7⟩ <;>
    first
      | exact h3
      | exact h4
      | exact le_min (le_trans h3 h4) (add_nonneg h3 (mul_nonneg h7 hdt))
      | exact min_le_left _ _

theorem update_combat_vitals (s : Character) (dt : ℚ) (hdt : 0 ≤ dt)
    (h : VitalsInRange s) : VitalsInRange (s.update_combat dt) := by
  unfold Character.update_combat
  exact combat_regen_vitals _ _ hdt (combat_cooldowns_vitals _ _
    (combat_special_timer_vitals _ _ (combat_hit_timer_vitals _ _
      (combat_attack_timer_vitals _ _ (combat_stun_vitals _ _ h)))))

theorem anim_hit_frame_vitals (s : Character)
    (h : VitalsInRange s) : VitalsInRange (s.anim_hit_frame) := by
  unfold Character.anim_hit_frame
  repeat' split
  all_goals exact h

theorem anim_special_hit_frame_vitals (s : Character)
    (h : VitalsInRange s) : VitalsInRange (s.anim_special_hit_frame) := by
  unfold Character.anim_special_hit_frame
  repeat' split
  all_goals exact h

theorem anim_choose_vitals (s : Character)
    (h : VitalsInRange s) : VitalsInRange (s.anim_choose) := by
  unfold Character.anim_choose
  split_ifs <;> exact h

theorem update_animations_vitals (s : Character) (dt : ℚ)
    (h : VitalsInRange s) : VitalsInRange (s.update_animations dt) := by
  unfold Character.update_animations
  dsimp only
  split_ifs <;>
    first
      | exact h
      | exact anim_choose_vitals _ (anim_special_hit_frame_vitals _
          (anim_hit_frame_vitals _ h))

theorem take_damage_vitals (s : Character) (d : ℤ) (ax : ℚ) (hd : 0 ≤ d)
    (h : VitalsInRange s) : VitalsInRange ((s.take_damage d ax).1) := by
  obtain ⟨h1, h2, h3, h4, h5, h6, h7⟩ := h
  unfold Character.take_damage
  dsimp only
  split_ifs <;>
    refine ⟨?_, ?_, h3, h4, h5, h6, h7⟩ <;>
    first
      | exact h1
      | exact h2
      | exact le_max_left _ _
      | exact max_le (le_trans h1 h2) (by linarith)

theorem update_vitals (s : Character) (dt : ℚ) (inp : PlayerInput) (hdt : 0 ≤ dt)
    (h : VitalsInRange s) : VitalsInRange (s.update dt inp) := by
  unfold Character.update
  split_ifs
  · exact h
  · exact update_animations_vitals _ _
      (update_combat_vitals _ _ hdt (update_physics_vitals _ _
        (handle_input_vitals _ _ _ h)))

/-- Claim C3: under any sequence of update ticks (dt ≥ 0) and mediator damage
calls (amount ≥ 0), health stays within [0, max_health] and stamina within
[0, max_stamina]; in particular stamina never becomes negative after repeated
block-start and jump consumption (both clamp at 0). -/
theorem C3_vitals_stay_in_range (s : Character) (ops : List CharOp)
    (h : VitalsInRange s) (hv : ∀ op ∈ ops, op.valid) :
    VitalsInRange (applyOps s ops) := by
  induction ops generalizing s with
  | nil => exact h
  | cons op rest ih =>
    refine ih (op.apply s) ?_ (fun o ho => hv o (List.mem_cons_of_mem op ho))
    have hop : op.valid := hv op (List.mem_cons_self op rest)
    cases op with
    | upd dt inp => exact update_vitals s dt inp hop h
    | dmg amount ax => exact take_damage_vitals s amount ax hop h

theorem input_block_neutral (s : Character) :
    s.input_block PlayerInput.neutral = { s with is_blocking := false } := by
  simp [Character.input_block, PlayerInput.neutral]

theorem input_move_neutral (s : Character) :
    s.input_move PlayerInput.neutral = { s with velocity_x := 0 } := by
  unfold Character.input_move
  split_ifs <;> simp_all [PlayerInput.neutral]

theorem input_jump_neutral (s : Character) :
    s.input_jump PlayerInput.neutral = s := by
  simp [Character.input_jump, PlayerInput.neutral]

theorem input_attack_neutral (s : Character) :
    s.input_attack PlayerInput.neutral = s := by
  simp [Character.input_attack, PlayerInput.neutral]

theorem input_special_neutral (s : Character) :
    s.input_special PlayerInput.neutral = s := by
  simp [Character.input_special, PlayerInput.neutral]

theorem handle_input_neutral (s : Character) (dt : ℚ) :
    s.handle_input PlayerInput.neutral dt =
      { s with is_blocking := false, velocity_x := 0 } := by
  unfold Character.handle_input
  split_ifs with h
  · rfl
  · rw [input_block_neutral, input_move_neutral, input_jump_neutral,
        input_attack_neutral, input_special_neutral]

theorem phys_gravity_zero (s : Character) : s.phys_gravity 0 = s := by
  unfold Character.phys_gravity
  split_ifs <;> first | rfl | (apply Character.ext_fields <;> simp)

theorem phys_integrate_zero (s : Character) : s.phys_integrate 0 = s := by
  unfold Character.phys_integrate
  apply Character.ext_fields <;> simp

theorem phys_ground_stable (s : Character)
    (hgr : s.ground_y ≤ s.y → s.y = s.ground_y ∧ s.velocity_y = 0 ∧ s.on_ground = true) :
    s.phys_ground = s := by
  unfold Character.phys_ground
  split_ifs with h
  · obtain ⟨e1, e2, e3⟩ := hgr h
    apply Character.ext_fields <;> simp [e1, e2, e3]
  · rfl

theorem phys_clamp_stable (s : Character)
    (hxl : -100 ≤ s.x) (hxr : s.x ≤ 900 - (s.width : ℚ)) :
    s.phys_clamp = s := by
  unfold Character.phys_clamp
  dsimp only
  split_ifs <;> first | rfl | linarith

theorem update_physics_zero (s : Character)
    (hgr : s.ground_y ≤ s.y → s.y = s.ground_y ∧ s.velocity_y = 0 ∧ s.on_ground = true)
    (hxl : -100 ≤ s.x) (hxr : s.x ≤ 900 - (s.width : ℚ)) :
    s.update_physics 0 = s := by
  unfold Character.update_physics
  rw [phys_gravity_zero, phys_integrate_zero, phys_ground_stable s hgr,
      phys_clamp_stable s hxl hxr]

theorem combat_stun_zero (s : Character)
    (hst : s.is_stunned = true → 0 < s.stun_duration) : s.combat_stun 0 = s := by
  unfold Character.combat_stun
  dsimp only
  split_ifs with h1 h2
  · exact absurd (by linarith [hst h1] : (0 : ℚ) < s.stun_duration - 0) (by linarith)
  · apply Character.ext_fields <;> simp
  · rfl

theorem combat_attack_timer_idle (s : Character)
    (hat : s.is_attacking = false) : s.combat_attack_timer dt = s := by
  unfold Character.combat_attack_timer
  rw [if_neg (by simp [hat])]

theorem combat_hit_timer_zero (s : Character)
    (hht : s.is_hit = true → 0 < s.hit_duration) : s.combat_hit_timer 0 = s := by
  unfold Character.combat_hit_timer
  dsimp only
  split_ifs with h1 h2
  · exact absurd (by linarith [hht h1] : (0 : ℚ) < s.hit_duration - 0) (by linarith)
  · apply Character.ext_fields <;> simp
  · rfl

theorem combat_special_timer_idle (s : Character)
    (hsp : s.is_special_attacking = false) : s.combat_special_timer dt = s := by
  unfold Character.combat_special_timer
  rw [if_neg (by simp [hsp])]

theorem combat_cooldowns_zero (s : Character) : s.combat_cooldowns 0 = s := by
  unfold Character.combat_cooldowns
  dsimp only
  split_ifs with h1 h2 h3 <;>
    first
      | rfl
      | (apply Character.ext_fields <;> simp <;> linarith)

theorem combat_regen_zero (s : Character) (hbl : s.is_blocking = false) :
    s.combat_regen 0 = s := by
  unfold Character.combat_regen
  dsimp only
  split_ifs <;>
    first
      | rfl
      | (apply Character.ext_fields <;> simp_all <;> linarith)
      | simp_all

theorem update_combat_zero (s : Character)
    (hbl : s.is_blocking = false) (hat : s.is_attacking = false)
    (hsp : s.is_special_attacking = false)
    (hst : s.is_stunned = true → 0 < s.stun_duration)
    (hht : s.is_hit = true → 0 < s.hit_duration) :
    s.update_combat 0 = s := by
  unfold Character.update_combat
  rw [combat_stun_zero s hst, combat_attack_timer_idle s hat,
      combat_hit_timer_zero s hht, combat_special_timer_idle s hsp,
      combat_cooldowns_zero, combat_regen_zero s hbl]

theorem anim_hit_frame_shape (s : Character) :
    ∃ ch, s.anim_hit_frame = { s with can_hit := ch } := by
  unfold Character.anim_hit_frame
  repeat' split
  all_goals exact ⟨_, rfl⟩

theorem anim_special_hit_frame_shape (s : Character) :
    ∃ csh, s.anim_special_hit_frame = { s with can_special_hit := csh } := by
  unfold Character.anim_special_hit_frame
  repeat' split
  all_goals exact ⟨_, rfl⟩

theorem anim_choose_shape (s : Character) :
    ∃ an la lsa ch csh, s.anim_choose =
      { s with animator := an, last_attack_id := la, last_special_attack_id := lsa,
               can_hit := ch, can_special_hit := csh } := by
  unfold Character.anim_choose
  by_cases h1 : s.is_special_attacking = true
  · rw [if_pos h1]
    by_cases h2 : s.current_special_attack_id ≠ s.last_special_attack_id
    · rw [if_pos h2]; exact ⟨_, _, _, _, _, rfl⟩
    · rw [if_neg h2]; exact ⟨_, _, _, _, _, rfl⟩
  · rw [if_neg h1]
    by_cases h3 : s.is_attacking = true
    · rw [if_pos h3]
      by_cases h4 : s.current_attack_id ≠ s.last_attack_id
      · rw [if_pos h4]; exact ⟨_, _, _, _, _, rfl⟩
      · rw [if_neg h4]; exact ⟨_, _, _, _, _, rfl⟩
    · rw [if_neg h3]
      by_cases h5 : s.is_hit = true
      · rw [if_pos h5]; exact ⟨_, _, _, _, _, rfl⟩
      · rw [if_neg h5]
        by_cases h6 : s.is_stunned = true
        · rw [if_pos h6]; exact ⟨_, _, _, _, _, rfl⟩
        · rw [if_neg h6]
          by_cases h7 : s.is_blocking = true
          · rw [if_pos h7]; exact ⟨_, _, _, _, _, rfl⟩
          · rw [if_neg h7]
            by_cases h8 : 10 < |s.velocity_x|
            · rw [if_pos h8]; exact ⟨_, _, _, _, _, rfl⟩
            · rw [if_neg h8]
              by_cases h9 : s.on_ground = false
              · rw [if_pos h9]; exact ⟨_, _, _, _, _, rfl⟩
              · rw [if_neg h9]; exact ⟨_, _, _, _, _, rfl⟩

theorem update_animations_shape (s : Character) (dt : ℚ) (hd : s.is_dead = false) :
    ∃ an la lsa ch csh, s.update_animations dt =
      { s with animator := an, last_attack_id := la, last_special_attack_id := lsa,
               can_hit := ch, can_special_hit := csh } := by
  unfold Character.update_animations
  dsimp only
  rw [if_neg (by simp [hd])]
  obtain ⟨ch1, e1⟩ := anim_hit_frame_shape { s with animator := s.animator.update dt }
  rw [e1]
  obtain ⟨csh1, e2⟩ :=
    anim_special_hit_frame_shape { s with animator := s.animator.update dt, can_hit := ch1 }
  rw [e2]
  obtain ⟨an, la, lsa, ch2, csh2, e3⟩ := anim_choose_shape
    { s with animator := s.animator.update dt, can_hit := ch1, can_special_hit := csh1 }
  rw [e3]
  exact ⟨_, _, _, _, _, rfl⟩

theorem anim_choose_can_hit_idle (s : Character) (hat : s.is_attacking = false) :
    (s.anim_choose).can_hit = s.can_hit := by
  unfold Character.anim_choose
  split_ifs <;> simp_all

theorem anim_choose_can_special_idle (s : Character)
    (hsp : s.is_special_attacking = false) :
    (s.anim_choose).can_special_hit = s.can_special_hit := by
  unfold Character.anim_choose
  split_ifs <;> simp_all

theorem anim_hit_frame_idle (s : Character) (hat : s.is_attacking = false) :
    s.anim_hit_frame = s := by
  unfold Character.anim_hit_frame
  rw [if_neg (by simp [hat])]

theorem anim_special_hit_frame_idle (s : Character)
    (hsp : s.is_special_attacking = false) :
    s.anim_special_hit_frame = s := by
  unfold Character.anim_special_hit_frame
  rw [if_neg (by simp [hsp])]

/-- Claim C8 (amended): an update tick with `dt = 0` is total (the embedding
is a function, never an error) and, with the NEUTRAL intent from a quiescent
state (no active attack or special, not blocking, zero horizontal velocity,
consistent ground contact, active stun/hit timers still positive, inside the
arena), it leaves position, velocity, health, stamina, every timer and every
combat state flag unchanged.  With a non-neutral intent `dt = 0` is not a
no-op (see the counterexample: a block intent consumes stamina). -/
theorem C8_zero_dt_neutral_noop (s : Character)
    (hvx : s.velocity_x = 0) (hbl : s.is_blocking = false)
    (hat : s.is_attacking = false) (hsp : s.is_special_attacking = false)
    (hst : s.is_stunned = true → 0 < s.stun_duration)
    (hht : s.is_hit = true → 0 < s.hit_duration)
    (hgr : s.ground_y ≤ s.y → s.y = s.ground_y ∧ s.velocity_y = 0 ∧ s.on_ground = true)
    (hxl : -100 ≤ s.x) (hxr : s.x ≤ 900 - (s.width : ℚ)) :
    (s.update 0 PlayerInput.neutral).x = s.x ∧
    (s.update 0 PlayerInput.neutral).y = s.y ∧
    (s.update 0 PlayerInput.neutral).velocity_x = s.velocity_x ∧
    (s.update 0 PlayerInput.neutral).velocity_y = s.velocity_y ∧
    (s.update 0 PlayerInput.neutral).health = s.health ∧
    (s.update 0 PlayerInput.neutral).stamina = s.stamina ∧
    (s.update 0 PlayerInput.neutral).facing_right = s.facing_right ∧
    (s.update 0 PlayerInput.neutral).on_ground = s.on_ground ∧
    (s.update 0 PlayerInput.neutral).is_attacking = s.is_attacking ∧
    (s.update 0 PlayerInput.neutral).is_special_attacking = s.is_special_attacking ∧
    (s.update 0 PlayerInput.neutral).is_blocking = s.is_blocking ∧
    (s.update 0 PlayerInput.neutral).is_stunned = s.is_stunned ∧
    (s.update 0 PlayerInput.neutral).is_hit = s.is_hit ∧
    (s.update 0 PlayerInput.neutral).is_dead = s.is_dead ∧
    (s.update 0 PlayerInput.neutral).can_hit = s.can_hit ∧
    (s.update 0 PlayerInput.neutral).can_special_hit = s.can_special_hit ∧
    (s.update 0 PlayerInput.neutral).attack_cooldown = s.attack_cooldown ∧
    (s.update 0 PlayerInput.neutral).special_attack_cooldown = s.special_attack_cooldown ∧
    (s.update 0 PlayerInput.neutral).attack_duration = s.attack_duration ∧
    (s.update 0 PlayerInput.neutral).special_attack_duration = s.special_attack_duration ∧
    (s.update 0 PlayerInput.neutral).stun_duration = s.stun_duration ∧
    (s.update 0 PlayerInput.neutral).hit_duration = s.hit_duration ∧
    (s.update 0 PlayerInput.neutral).last_block_time = s.last_block_time := by
  by_cases hd : s.is_dead = true
  · simp [Character.update, hd]
  · have hd' : s.is_dead = false := by simp_all
    unfold Character.update
    rw [if_neg (by simp [hd']), handle_input_neutral,
        update_physics_zero _ (by exact hgr) (by exact hxl) (by exact hxr),
        update_combat_zero _ rfl (by exact hat) (by exact hsp) (by exact hst)
          (by exact hht)]
    unfold Character.update_animations
    dsimp only
    rw [if_neg (by simp [hd']),
        anim_hit_frame_idle _ (by exact hat),
        anim_special_hit_frame_idle _ (by exact hsp)]
    obtain ⟨an, la, lsa, ch, csh, e⟩ := anim_choose_shape
      { s with is_blocking := false, velocity_x := 0,
               animator := ({ s with is_blocking := false, velocity_x := 0 } :
                 Character).animator.update 0 }
    have ech := anim_choose_can_hit_idle
      { s with is_blocking := false, velocity_x := 0,
               animator := ({ s with is_blocking := false, velocity_x := 0 } :
                 Character).animator.update 0 } (by exact hat)
    have ecsh := anim_choose_can_special_idle
      { s with is_blocking := false, velocity_x := 0,
               animator := ({ s with is_blocking := false, velocity_x := 0 } :
                 Character).animator.update 0 } (by exact hsp)
    rw [e] at ech ecsh ⊢
    refine ⟨rfl, rfl, hvx.symm, rfl, rfl, rfl, rfl, rfl, rfl, rfl, hbl.symm, rfl, rfl,
      rfl, ?_, ?_, rfl, rfl, rfl, rfl, rfl, rfl, rfl⟩
    · exact ech
    · exact ecsh

theorem input_block_of_blocking (s : Character) (inp : PlayerInput)
    (hb : s.is_blocking = true) :
    s.input_block inp =
      { s with is_blocking := inp.block && (decide (0 < s.stamina) && !s.is_attacking) } := by
  unfold Character.input_block
  dsimp only
  rw [if_neg (by simp [hb])]

theorem input_move_keeps (s : Character) (inp : PlayerInput) :
    (s.input_move inp).is_attacking = s.is_attacking ∧
    (s.input_move inp).is_blocking = s.is_blocking ∧
    (s.input_move inp).is_stunned = s.is_stunned ∧
    (s.input_move inp).is_special_attacking = s.is_special_attacking ∧
    (s.input_move inp).attack_cooldown = s.attack_cooldown ∧
    (s.input_move inp).current_attack_id = s.current_attack_id ∧
    (s.input_move inp).stamina = s.stamina ∧
    (s.input_move inp).on_ground = s.on_ground ∧
    (s.input_move inp).jump_stamina_cost = s.jump_stamina_cost ∧
    (s.input_move inp).attack_duration = s.attack_duration ∧
    (s.input_move inp).is_dead = s.is_dead := by
  unfold Character.input_move
  split_ifs <;> simp

theorem input_jump_keeps (s : Character) (inp : PlayerInput)
    (hjc : 0 < s.jump_stamina_cost)
    (hex : ¬(inp.up = true ∧ s.is_blocking = false ∧ s.on_ground = true ∧
      s.stamina = s.jump_stamina_cost)) :
    (s.input_jump inp).is_stunned = s.is_stunned ∧
    (s.input_jump inp).is_attacking = s.is_attacking ∧
    (s.input_jump inp).is_blocking = s.is_blocking ∧
    (s.input_jump inp).is_special_attacking = s.is_special_attacking ∧
    (s.input_jump inp).attack_cooldown = s.attack_cooldown ∧
    (s.input_jump inp).current_attack_id = s.current_attack_id ∧
    (s.input_jump inp).attack_duration = s.attack_duration ∧
    (s.input_jump inp).is_dead = s.is_dead := by
  unfold Character.input_jump
  dsimp only
  split_ifs with h1 h2
  · exfalso
    obtain ⟨hu, hg, hbf, -, hle⟩ := h1
    have hd2 : s.stamina - s.jump_stamina_cost ≤ 0 :=
      le_trans (le_max_right 0 _) h2
    exact hex ⟨hu, hbf, hg, le_antisymm (by linarith) hle⟩
  · exact ⟨rfl, rfl, rfl, rfl, rfl, rfl, rfl, rfl⟩
  · exact ⟨rfl, rfl, rfl, rfl, rfl, rfl, rfl, rfl⟩

theorem input_attack_starts (s : Character) (inp : PlayerInput)
    (h1 : inp.attack = true) (h2 : s.is_attacking = false)
    (h3 : s.is_special_attacking = false) (h4 : s.attack_cooldown ≤ 0)
    (h5 : s.is_stunned = false) :
    s.input_attack inp = s.start_attack := by
  unfold Character.input_attack
  rw [if_pos ⟨h1, h2, h3, h4, h5⟩]

theorem input_special_skip_attacking (s : Character) (inp : PlayerInput)
    (hat : s.is_attacking = true) : s.input_special inp = s := by
  unfold Character.input_special
  rw [if_neg (by simp [hat])]

theorem handle_input_attack_start (s : Character) (inp : PlayerInput) (dt : ℚ)
    (hb : s.is_blocking = true) (hstn : s.is_stunned = false)
    (hat : s.is_attacking = false) (hsp : s.is_special_attacking = false)
    (hcd : s.attack_cooldown ≤ 0) (hatk : inp.attack = true)
    (hjc : 0 < s.jump_stamina_cost)
    (hex : ¬(inp.up = true ∧ inp.block = false ∧ s.on_ground = true ∧
      s.stamina = s.jump_stamina_cost)) :
    (s.handle_input inp dt).is_attacking = true ∧
    (s.handle_input inp dt).is_blocking = false ∧
    (s.handle_input inp dt).current_attack_id = s.current_attack_id + 1 ∧
    (s.handle_input inp dt).is_stunned = false ∧
    (s.handle_input inp dt).is_special_attacking = false ∧
    (s.handle_input inp dt).attack_duration = 0.48 ∧
    (s.handle_input inp dt).is_dead = s.is_dead := by
  unfold Character.handle_input
  rw [if_neg (by simp [hstn])]
  rw [input_block_of_blocking s inp hb]
  obtain ⟨m1, m2, m3, m4, m5, m6, m7, m8, m9, m10, m11⟩ := input_move_keeps
    { s with is_blocking := inp.block && (decide (0 < s.stamina) && !s.is_attacking) } inp
  obtain ⟨j1, j2, j3, j4, j5, j6, j7, j8⟩ := input_jump_keeps
    (({ s with is_blocking :=
        inp.block && (decide (0 < s.stamina) && !s.is_attacking) } :
      Character).input_move inp) inp
    (by rw [m9]; exact hjc)
    (by
      rintro ⟨hu, hbf, hg, hst⟩
      rw [m2] at hbf
      rw [m7, m9] at hst
      rw [m8] at hg
      have hpos : (0 : ℚ) < s.stamina := hst ▸ hjc
      rw [hat, decide_eq_true hpos] at hbf
      simp only [Bool.not_false, Bool.and_true] at hbf
      exact hex ⟨hu, hbf, hg, hst⟩)
  rw [input_attack_starts _ inp hatk (j2.trans (m1.trans hat))
    (j4.trans (m4.trans hsp)) (le_of_eq_of_le (j5.trans m5) hcd)
    (j1.trans (m3.trans hstn))]
  rw [input_special_skip_attacking _ inp rfl]
  refine ⟨rfl, rfl, ?_, ?_, ?_, rfl, ?_⟩
  · simp only [Character.start_attack]
    rw [j6, m6]
  · simp only [Character.start_attack]
    rw [j1, m3]
    exact hstn
  · simp only [Character.start_attack]
    rw [j4, m4]
    exact hsp
  · simp only [Character.start_attack]
    rw [j8, m11]

theorem phys_gravity_keeps (s : Character) (dt : ℚ) :
    (s.phys_gravity dt).is_attacking = s.is_attacking ∧
    (s.phys_gravity dt).is_blocking = s.is_blocking ∧
    (s.phys_gravity dt).is_stunned = s.is_stunned ∧
    (s.phys_gravity dt).is_special_attacking = s.is_special_attacking ∧
    (s.phys_gravity dt).current_attack_id = s.current_attack_id ∧
    (s.phys_gravity dt).attack_duration = s.attack_duration ∧
    (s.phys_gravity dt).is_dead = s.is_dead := by
  unfold Character.phys_gravity
  split_ifs <;> simp

theorem phys_integrate_keeps (s : Character) (dt : ℚ) :
    (s.phys_integrate dt).is_attacking = s.is_attacking ∧
    (s.phys_integrate dt).is_blocking = s.is_blocking ∧
    (s.phys_integrate dt).is_stunned = s.is_stunned ∧
    (s.phys_integrate dt).is_special_attacking = s.is_special_attacking ∧
    (s.phys_integrate dt).current_attack_id = s.current_attack_id ∧
    (s.phys_integrate dt).attack_duration = s.attack_duration ∧
    (s.phys_integrate dt).is_dead = s.is_dead :=
  ⟨rfl, rfl, rfl, rfl, rfl, rfl, rfl⟩

theorem phys_ground_keeps (s : Character) :
    s.phys_ground.is_attacking = s.is_attacking ∧
    s.phys_ground.is_blocking = s.is_blocking ∧
    s.phys_ground.is_stunned = s.is_stunned ∧
    s.phys_ground.is_special_attacking = s.is_special_attacking ∧
    s.phys_ground.current_attack_id = s.current_attack_id ∧
    s.phys_ground.attack_duration = s.attack_duration ∧
    s.phys_ground.is_dead = s.is_dead := by
  unfold Character.phys_ground
  split_ifs <;> simp

theorem phys_clamp_keeps (s : Character) :
    s.phys_clamp.is_attacking = s.is_attacking ∧
    s.phys_clamp.is_blocking = s.is_blocking ∧
    s.phys_clamp.is_stunned = s.is_stunned ∧
    s.phys_clamp.is_special_attacking = s.is_special_attacking ∧
    s.phys_clamp.current_attack_id = s.current_attack_id ∧
    s.phys_clamp.attack_duration = s.attack_duration ∧
    s.phys_clamp.is_dead = s.is_dead := by
  unfold Character.phys_clamp
  dsimp only
  split_ifs <;> simp

theorem physics_keeps_flags (s : Character) (dt : ℚ) :
    (s.update_physics dt).is_attacking = s.is_attacking ∧
    (s.update_physics dt).is_blocking = s.is_blocking ∧
    (s.update_physics dt).is_stunned = s.is_stunned ∧
    (s.update_physics dt).is_special_attacking = s.is_special_attacking ∧
    (s.update_physics dt).current_attack_id = s.current_attack_id ∧
    (s.update_physics dt).attack_duration = s.attack_duration ∧
    (s.update_physics dt).is_dead = s.is_dead := by
  unfold Character.update_physics
  obtain ⟨g1, g2, g3, g4, g5, g6, g7⟩ := phys_gravity_keeps s dt
  obtain ⟨i1, i2, i3, i4, i5, i6, i7⟩ := phys_integrate_keeps (s.phys_gravity dt) dt
  obtain ⟨r1, r2, r3, r4, r5, r6, r7⟩ :=
    phys_ground_keeps ((s.phys_gravity dt).phys_integrate dt)
  obtain ⟨c1, c2, c3, c4, c5, c6, c7⟩ :=
    phys_clamp_keeps (((s.phys_gravity dt).phys_integrate dt).phys_ground)
  exact ⟨c1.trans (r1.trans (i1.trans g1)), c2.trans (r2.trans (i2.trans g2)),
         c3.trans (r3.trans (i3.trans g3)), c4.trans (r4.trans (i4.trans g4)),
         c5.trans (r5.trans (i5.trans g5)), c6.trans (r6.trans (i6.trans g6)),
         c7.trans (r7.trans (i7.trans g7))⟩

theorem combat_stun_idle (s : Character) (dt : ℚ) (hstn : s.is_stunned = false) :
    s.combat_stun dt = s := by
  unfold Character.combat_stun
  rw [if_neg (by simp [hstn])]

theorem combat_attack_timer_active (s : Character) (dt : ℚ)
    (hat : s.is_attacking = true) (hdur : ¬(s.attack_duration - dt ≤ 0)) :
    s.combat_attack_timer dt = { s with attack_duration := s.attack_duration - dt } := by
  unfold Character.combat_attack_timer
  dsimp only
  rw [if_pos hat, if_neg hdur]

theorem combat_hit_timer_keeps (s : Character) (dt : ℚ) :
    (s.combat_hit_timer dt).is_attacking = s.is_attacking ∧
    (s.combat_hit_timer dt).is_blocking = s.is_blocking ∧
    (s.combat_hit_timer dt).is_special_attacking = s.is_special_attacking ∧
    (s.combat_hit_timer dt).current_attack_id = s.current_attack_id ∧
    (s.combat_hit_timer dt).is_dead = s.is_dead := by
  unfold Character.combat_hit_timer
  dsimp only
  split_ifs <;> simp

theorem combat_cooldowns_keeps (s : Character) (dt : ℚ) :
    (s.combat_cooldowns dt).is_attacking = s.is_attacking ∧
    (s.combat_cooldowns dt).is_blocking = s.is_blocking ∧
    (s.combat_cooldowns dt).current_attack_id = s.current_attack_id ∧
    (s.combat_cooldowns dt).is_dead = s.is_dead := by
  unfold Character.combat_cooldowns
  dsimp only
  split_ifs <;> simp

theorem combat_regen_keeps (s : Character) (dt : ℚ) :
    (s.combat_regen dt).is_attacking = s.is_attacking ∧
    (s.combat_regen dt).is_blocking = s.is_blocking ∧
    (s.combat_regen dt).current_attack_id = s.current_attack_id ∧
    (s.combat_regen dt).is_dead = s.is_dead := by
  unfold Character.combat_regen
  dsimp only
  split_ifs <;> simp

theorem combat_keeps_attack (s : Character) (dt : ℚ)
    (hstn : s.is_stunned = false) (hat : s.is_attacking = true)
    (hsp : s.is_special_attacking = false)
    (hdur : ¬(s.attack_duration - dt ≤ 0)) :
    (s.update_combat dt).is_attacking = true ∧
    (s.update_combat dt).is_blocking = s.is_blocking ∧
    (s.update_combat dt).current_attack_id = s.current_attack_id ∧
    (s.update_combat dt).is_dead = s.is_dead := by
  unfold Character.update_combat
  rw [combat_stun_idle s dt hstn]
  rw [combat_attack_timer_active s dt hat hdur]
  obtain ⟨h1, h2, h3, h4, h5⟩ := combat_hit_timer_keeps
    ({ s with attack_duration := s.attack_duration - dt } : Character) dt
  rw [combat_special_timer_idle _ (h3.trans hsp)]
  obtain ⟨c1, c2, c3, c4⟩ := combat_cooldowns_keeps
    (({ s with attack_duration := s.attack_duration - dt } :
      Character).combat_hit_timer dt) dt
  obtain ⟨r1, r2, r3, r4⟩ := combat_regen_keeps
    ((({ s with attack_duration := s.attack_duration - dt } :
      Character).combat_hit_timer dt).combat_cooldowns dt) dt
  refine ⟨?_, ?_, ?_, ?_⟩
  · rw [r1, c1, h1]; exact hat
  · rw [r2, c2, h2]
  · rw [r3, c3, h4]
  · rw [r4, c4, h5]

theorem animations_keeps_flags (s : Character) (dt : ℚ) (hd : s.is_dead = false) :
    (s.update_animations dt).is_attacking = s.is_attacking ∧
    (s.update_animations dt).is_blocking = s.is_blocking ∧
    (s.update_animations dt).current_attack_id = s.current_attack_id := by
  obtain ⟨an, la, lsa, ch, csh, e⟩ := update_animations_shape s dt hd
  rw [e]
  exact ⟨rfl, rfl, rfl⟩

/-- C9 (amended): from a live, unstunned, blocking fighter whose attack is
off cooldown and who is not already mid-attack, an intent with `attack`
pressed starts the attack on this very tick: after `update(dt, intent)` the
fighter is attacking, no longer blocking, and carries a fresh attack id —
provided the same tick's jump branch does not drain stamina to exactly zero
(which would stun first), and `dt` is shorter than the 0.48 s swing. -/
theorem C9_attack_preempts_block (s : Character) (inp : PlayerInput) (dt : ℚ)
    (hdead : s.is_dead = false) (hb : s.is_blocking = true)
    (hstn : s.is_stunned = false) (hat : s.is_attacking = false)
    (hsp : s.is_special_attacking = false) (hcd : s.attack_cooldown ≤ 0)
    (hatk : inp.attack = true) (hjc : 0 < s.jump_stamina_cost)
    (hex : ¬(inp.up = true ∧ inp.block = false ∧ s.on_ground = true ∧
      s.stamina = s.jump_stamina_cost))
    (hdt : dt < 0.48) :
    (s.update dt inp).is_attacking = true ∧
    (s.update dt inp).is_blocking = false ∧
    (s.update dt inp).current_attack_id = s.current_attack_id + 1 := by
  unfold Character.update
  rw [if_neg (by simp [hdead])]
  obtain ⟨hi1, hi2, hi3, hi4, hi5, hi6, hi7⟩ :=
    handle_input_attack_start s inp dt hb hstn hat hsp hcd hatk hjc hex
  obtain ⟨p1, p2, p3, p4, p5, p6, p7⟩ := physics_keeps_flags (s.handle_input inp dt) dt
  obtain ⟨c1, c2, c3, c4⟩ := combat_keeps_attack ((s.handle_input inp dt).update_physics dt)
    dt (p3.trans hi4) (p1.trans hi1) (p4.trans hi5)
    (by rw [p6, hi6]; intro hcon; linarith)
  obtain ⟨a1, a2, a3⟩ := animations_keeps_flags
    (((s.handle_input inp dt).update_physics dt).update_combat dt) dt
    (c4.trans (p7.trans (hi7.trans hdead)))
  exact ⟨a1.trans c1, a2.trans (c2.trans (p2.trans hi2)),
         a3.trans (c3.trans (p5.trans hi3))⟩

section ConcreteEvaluation

/- Batteries marks the `Rat` arithmetic operations `@[irreducible]`, which
blocks kernel evaluation of concrete rational states; re-enable unfolding
for this section of concrete evaluations only. -/
attribute [local semireducible] Rat.add Rat.mul Rat.sub Rat.inv Rat.ofScientific

/-- Witness for C2: the same attack against a blocking, facing defender
(health unchanged) and against the identical non-blocking defender (full
3 damage, 100 → 97). -/
theorem C2_witness :
    (exBlocker.take_damage 3 100).1.health = exBlocker.health ∧
    ((samurai2 140 335).take_damage 3 100).1.health =
      max 0 ((samurai2 140 335).health - 3) :=
  ⟨(C2_block_gates_damage exBlocker 3 100 (by decide) (by decide)).1 (by decide),
   (C2_block_gates_damage (samurai2 140 335) 3 100 (by decide) (by decide)).2 (by decide)⟩

/-- Witness for C3 at a concrete fighter and operation sequence: a 60 Hz tick,
a 3-damage hit, and a zero-dt block-starting tick. -/
theorem C3_witness :
    VitalsInRange (applyOps (samurai1 150 335)
      [CharOp.upd (1/60) PlayerInput.neutral, CharOp.dmg 3 600,
       CharOp.upd 0 { block := true }]) :=
  C3_vitals_stay_in_range (samurai1 150 335)
    [CharOp.upd (1/60) PlayerInput.neutral, CharOp.dmg 3 600,
     CharOp.upd 0 { block := true }]
    (by unfold VitalsInRange; decide)
    (by
      intro op hop
      fin_cases hop <;> norm_num [CharOp.valid])

/-- Witness for C8 at the freshly spawned player fighter: a zero-dt neutral
tick changes neither position nor stamina nor the blocking flag. -/
theorem C8_witness :
    (exIdle.update 0 PlayerInput.neutral).x = exIdle.x ∧
    (exIdle.update 0 PlayerInput.neutral).stamina = exIdle.stamina ∧
    (exIdle.update 0 PlayerInput.neutral).is_blocking = exIdle.is_blocking :=
  ⟨(C8_zero_dt_neutral_noop exIdle (by decide) (by decide) (by decide) (by decide)
      (by decide) (by decide) (by decide) (by decide) (by decide)).1,
   (C8_zero_dt_neutral_noop exIdle (by decide) (by decide) (by decide) (by decide)
      (by decide) (by decide) (by decide) (by decide) (by decide)).2.2.2.2.2.1,
   (C8_zero_dt_neutral_noop exIdle (by decide) (by decide) (by decide) (by decide)
      (by decide) (by decide) (by decide) (by decide) (by decide)).2.2.2.2.2.2.2.2.2.2.1⟩

/-- Witness for C6: the player's third round win in the fight scene starts the
dialogue without match-over; the AI's third win sets match-over at once; the
level-2 controller sets match-over at once on the player's third win. -/
theorem C6_witness :
    (exC6fight.end_round "player_win").match_over = exC6fight.match_over ∧
    (exC6fight.end_round "player_win").showing_dialogue = true ∧
    ({ exC6fight with player_wins := 0, ai_wins := 2 }.end_round "ai_win").match_over = true ∧
    (exC6level2.end_round "player_wins").match_over = true :=
  ⟨(C6_match_over_entry exC6fight exC6level2 "player_win" 0).1 rfl (by decide),
   (C6_match_over_entry exC6fight exC6level2 "player_win" 0).2.1 rfl (by decide),
   (C6_match_over_entry { exC6fight with player_wins := 0, ai_wins := 2 } exC6level2
      "ai_win" 0).2.2.1 rfl (by decide) (by decide),
   (C6_match_over_entry exC6fight exC6level2 "player_wins" 0).2.2.2.2.2.1 rfl (by decide)⟩

set_option maxRecDepth 4000 in
/-- Claim C1 (evidence of the code bug): a single attack instance (attack id 1
throughout, still the same swing) applies damage on two consecutive mediator
ticks — `_update_animations` re-enables `can_hit` every tick the attack clip
sits at/after the hit frame, defeating the mediator's `can_hit = False`
latch-clear, so damage is NOT applied at most once per attack instance. -/
theorem C1_single_swing_hits_twice :
    exC1fight.player1.current_attack_id = 1 ∧
    exC1tick1.player1.current_attack_id = 1 ∧
    exC1tick2.player1.current_attack_id = 1 ∧
    exC1tick1.player1.is_attacking = true ∧
    exC1tick2.player1.is_attacking = true ∧
    exC1fight.player2.health = 97 ∧
    exC1tick1.player2.health = 94 ∧
    exC1tick2.player2.health = 91 := by decide

/-- Counterexample to claim C4: in `FightScene._handle_combat`, an attack that
resolves as an effective block (defender blocking and facing the attacker,
zero damage dealt) leaves the attacker's `can_hit` latch SET — only a damaging
hit clears it (`take_damage` returns `False` on a block). -/
theorem C4_cex_fight_block_keeps_latch :
    exC4fight.player1.can_hit = true ∧
    (Option.map (fun r => r.colliderect exC4fight.player2.get_rect)
      exC4fight.player1.get_attack_rect) = some true ∧
    exC4fight.player2.effective_block exC4fight.player1.x = true ∧
    (exC4fight.handle_combat).player2.health = exC4fight.player2.health ∧
    (exC4fight.handle_combat).player1.can_hit = true := by decide

/-- Counterexample to claim C5: `FightScene._start_new_round` does not reset
stamina, the stunned flag or the hit-reaction flag — a player who ended the
round with 30 stamina, stunned and hit-reacting starts the next round in the
same condition (only position/health/velocity/attack/block/dead are reset). -/
theorem C5_cex_stamina_stun_not_reset :
    exC5fight.match_over = false ∧
    exC5fight.player_wins < exC5fight.wins_needed ∧
    exC5fight.ai_wins < exC5fight.wins_needed ∧
    exC5fight.player1.max_stamina = 100 ∧
    (exC5fight.start_new_round).round_over = false ∧
    (exC5fight.start_new_round).player1.stamina = 30 ∧
    (exC5fight.start_new_round).player1.is_stunned = true ∧
    (exC5fight.start_new_round).player1.is_hit = true := by decide

/-- Counterexample to claim C6: when the PLAYER's win counter first reaches
the threshold 3 in `FightScene._end_round`, the match-over state is NOT
entered on that tick — a victory dialogue starts instead and `match_over`
stays false. -/
theorem C6_cex_third_win_no_match_over :
    exC6fight.player_wins = 2 ∧ exC6fight.wins_needed = 3 ∧
    exC6fight.match_over = false ∧
    (exC6fight.end_round "player_win").player_wins = 3 ∧
    (exC6fight.end_round "player_win").match_over = false ∧
    (exC6fight.end_round "player_win").showing_dialogue = true := by decide

/-- Counterexample to claim C7: an effective block (blocking, alive, facing
the attacker, health untouched) makes `take_damage` return `False`, not
`True` — the claim's "returns true exactly when damage or an effective block
was applied" fails on the block case. -/
theorem C7_cex_block_returns_false :
    exBlocker.is_blocking = true ∧ exBlocker.is_dead = false ∧
    exBlocker.facing_right = false ∧ (100 : ℚ) < exBlocker.x ∧
    (exBlocker.take_damage 3 100).1.health = exBlocker.health ∧
    (exBlocker.take_damage 3 100).2 = false := by decide

/-- Counterexample to claim C8: an update tick with `dt = 0` is not a no-op
for every intent — a block-starting intent consumes the 50-point block
stamina cost and raises the blocking flag even at `dt = 0`. -/
theorem C8_cex_zero_dt_block_consumes_stamina :
    exIdle.stamina = 100 ∧
    (exIdle.update 0 { block := true }).stamina = 50 ∧
    (exIdle.update 0 { block := true }).is_blocking = true := by decide

/-- Counterexample to claim C9: a blocking fighter with exactly 20 stamina
(the jump cost), not stunned, not attacking, cooldown ready, receiving an
intent with both `up` and `attack` pressed: the jump drains stamina to 0 and
stuns in the same tick, so the attack does NOT start. -/
theorem C9_cex_jump_stun_swallows_attack :
    exC9jumpStun.is_blocking = true ∧ exC9jumpStun.is_stunned = false ∧
    exC9jumpStun.is_attacking = false ∧ exC9jumpStun.is_special_attacking = false ∧
    exC9jumpStun.attack_cooldown ≤ 0 ∧
    (exC9jumpStun.update (1/60) { up := true, attack := true }).is_attacking = false ∧
    (exC9jumpStun.update (1/60) { up := true, attack := true }).current_attack_id =
      exC9jumpStun.current_attack_id ∧
    (exC9jumpStun.update (1/60) { up := true, attack := true }).is_stunned = true := by
  decide

/-- Witness for C4 at the concrete block scenario (fight scene leaves the
latch set and deals no damage) and the concrete level-2 scenario (latch
cleared). -/
theorem C4_witness :
    ((exC4fight.handle_combat).player1.can_hit = exC4fight.player1.can_hit ∧
      (exC4fight.handle_combat).player2.health = exC4fight.player2.health) ∧
    (exC4level2.check_collisions).player1.can_hit = false :=
  ⟨(C4_latch_cleared_on_hit_only exC4fight exC4level2).1 (by decide),
   (C4_latch_cleared_on_hit_only exC4fight exC4level2).2.2 (by decide) (by decide)
     (by decide) (by decide)⟩

/-- Witness for C5 at concrete post-round states: the fight-scene player keeps
its depleted stamina and its stunned/hit flags into the new round; the level-2
controller resets them. -/
theorem C5_witness :
    ((exC5fight.start_new_round).player1.stamina = exC5fight.player1.stamina ∧
     (exC5fight.start_new_round).player1.is_stunned = exC5fight.player1.is_stunned ∧
     (exC5fight.start_new_round).player1.is_hit = exC5fight.player1.is_hit ∧
     (exC5fight.start_new_round).player2.stamina = exC5fight.player2.stamina ∧
     (exC5fight.start_new_round).player2.is_stunned = exC5fight.player2.is_stunned ∧
     (exC5fight.start_new_round).player2.is_hit = exC5fight.player2.is_hit) ∧
    ((exC5level2.start_next_round).player1.stamina = exC5level2.player1.max_stamina ∧
     (exC5level2.start_next_round).player1.is_stunned = false) :=
  ⟨(C5_round_reset_scope exC5fight exC5level2 (by decide)).2.1,
   ⟨(C5_round_reset_scope exC5fight exC5level2 (by decide)).2.2.2.2.2.1,
    (C5_round_reset_scope exC5fight exC5level2 (by decide)).2.2.2.2.2.2.2.1⟩⟩

/-- Witness for C7: a blocking, facing defender (return `False`, state
unchanged) and the same defender not blocking (return `True`). -/
theorem C7_witness :
    ((exBlocker.take_damage 3 100).2 = true ↔
      (exBlocker.is_dead = false ∧ exBlocker.effective_block 100 = false)) ∧
    ((exBlocker.take_damage 3 100).1 = exBlocker ∧ (exBlocker.take_damage 3 100).2 = false) :=
  ⟨(C7_take_damage_return_value exBlocker 3 100).1,
   (C7_take_damage_return_value exBlocker 3 100).2.1 (by decide)⟩

/-- Witness for C9 at the concrete blocking samurai (full stamina, attack off
cooldown) receiving an intent with both `attack` and `block` held, at a 60 Hz
tick: the attack starts this tick, the block drops, and the attack id
increments. -/
theorem C9_witness :
    (exC9blocker.update (1/60) { attack := true, block := true }).is_attacking = true ∧
    (exC9blocker.update (1/60) { attack := true, block := true }).is_blocking = false ∧
    (exC9blocker.update (1/60) { attack := true, block := true }).current_attack_id =
      exC9blocker.current_attack_id + 1 :=
  C9_attack_preempts_block exC9blocker { attack := true, block := true } (1/60)
    (by decide) (by decide) (by decide) (by decide) (by decide) (by decide)
    (by decide) (by decide) (by decide) (by decide)

end ConcreteEvaluation
